import Mathlib

/-!
A shallow embedding of the media-bridge core of the Janus NoSIP plugin
(src/plugins/janus_nosip.c), together with theorems settling claims
about its behaviour.

Pure string helpers model the C string functions the plugin uses
(strstr, strcasecmp, the sscanf pattern on crypto attribute values).
The per-session media state mirrors struct janus_nosip_media field by
field.  Kernel resources and randomness are explicit parameters: bind
outcomes are an oracle on ports, random port picks are a stream of
naturals, SRTP key generation is a stream of base64 strings, SRTP
unprotect results are libsrtp error codes passed in, and file
descriptors of freshly created sockets are fixed symbolic values.
-/

namespace NoSip

/-- Character-list test that the first list is an initial segment of the
second (the inner comparison loop of C strstr). -/
def startsWithL : List Char → List Char → Bool
  | [], _ => true
  | _ :: _, [] => false
  | a :: ns, b :: s => a == b && startsWithL ns s

/-- Substring occurrence test: hasSubL needle hay models
strstr(hay, needle) != NULL. -/
def hasSubL (needle : List Char) : List Char → Bool
  | [] => startsWithL needle []
  | b :: t => startsWithL needle (b :: t) || hasSubL needle t

/-- strstr(hay, needle) != NULL on strings. -/
def hasSub (hay needle : String) : Bool := hasSubL needle.toList hay.toList

/-- String s starts with string p. -/
def strStarts (s p : String) : Bool := startsWithL p.toList s.toList

/-- ASCII lower-casing of one character. -/
def charLower (c : Char) : Char :=
  if 'A' ≤ c && c ≤ 'Z' then Char.ofNat (c.toNat + 32) else c

/-- Case-insensitive string equality: models strcasecmp(a, b) == 0. -/
def strCaseEq (a b : String) : Bool :=
  a.toList.map charLower == b.toList.map charLower

/-- Decimal parser for the numeric fields of a crypto attribute (the
digit runs accepted by sscanf on the inputs the plugin receives). -/
def parseDecNat (s : String) : Option Nat :=
  if s.toList ≠ [] && s.toList.all Char.isDigit then
    some (s.toList.foldl (fun n c => n * 10 + (c.toNat - 48)) 0)
  else none

/-- Models sscanf(value, "%i AES_CM_128_HMAC_SHA1_%2d inline:%80s") == 3
(janus_nosip.c lines 1473-1474) on space-separated crypto values: a tag,
a suite of one or two digits glued to the fixed cipher name, and up to 80
key characters after the inline marker. -/
def parseCrypto (v : String) : Option (Nat × Nat × String) :=
  match (v.split (fun c => c = ' ')).filter (fun t => t ≠ "") with
  | t1 :: t2 :: t3 :: _ =>
    match parseDecNat t1 with
    | none => none
    | some tag =>
      if strStarts t2 "AES_CM_128_HMAC_SHA1_" then
        let rest := t2.toList.drop 21
        if rest.all Char.isDigit && decide (1 ≤ rest.length) && decide (rest.length ≤ 2) then
          let suite := rest.foldl (fun n c => n * 10 + (c.toNat - 48)) 0
          if strStarts t3 "inline:" then
            let key := (t3.toList.drop 7).take 80
            if key.isEmpty then none else some (tag, suite, String.mk key)
          else none
        else none
      else none
  | _ => none

/-- An installed inbound SRTP context: the key material handed to
srtp_create along with the negotiated suite. -/
structure SrtpCtx where
  key : String
  suite : Nat
deriving DecidableEq

/-- Mirror of struct janus_nosip_media (janus_nosip.c lines 198-228).
File descriptors use -1 for closed, as the C does.  The outbound SRTP
context stores the generated base64 key; srtp_policy_t bookkeeping that
only feeds srtp_create is not represented separately.  Default values
are the ones janus_nosip_create_session assigns (lines 604-645). -/
structure Media where
  remote_ip : Option String := none
  ready : Bool := false
  autoack : Bool := true
  require_srtp : Bool := false
  has_srtp_local : Bool := false
  has_srtp_remote : Bool := false
  has_audio : Bool := false
  audio_rtp_fd : Int := -1
  audio_rtcp_fd : Int := -1
  local_audio_rtp_port : Nat := 0
  remote_audio_rtp_port : Nat := 0
  local_audio_rtcp_port : Nat := 0
  remote_audio_rtcp_port : Nat := 0
  audio_ssrc : Nat := 0
  audio_ssrc_peer : Nat := 0
  audio_pt : Int := -1
  audio_srtp_in : Option SrtpCtx := none
  audio_srtp_out : Option String := none
  audio_srtp_suite_in : Nat := 0
  audio_srtp_suite_out : Nat := 0
  audio_send : Bool := true
  has_video : Bool := false
  video_rtp_fd : Int := -1
  video_rtcp_fd : Int := -1
  local_video_rtp_port : Nat := 0
  remote_video_rtp_port : Nat := 0
  local_video_rtcp_port : Nat := 0
  remote_video_rtcp_port : Nat := 0
  video_ssrc : Nat := 0
  video_ssrc_peer : Nat := 0
  video_pt : Int := -1
  video_srtp_in : Option SrtpCtx := none
  video_srtp_out : Option String := none
  video_srtp_suite_in : Nat := 0
  video_srtp_suite_out : Nat := 0
  video_send : Bool := true
  pipefd0 : Int := -1
  pipefd1 : Int := -1
  updated : Bool := false
deriving DecidableEq

/-- The media state of a freshly created session
(janus_nosip_create_session, lines 604-645). -/
def initMedia : Media := {}

/-- SRTP_MASTER_LENGTH: master key plus salt, 30 bytes. -/
def srtpMasterLength : Nat := 30

/-- Length of the g_base64_decode output for a base64 string (model of
the decoder the plugin calls; padding is not represented). -/
def b64DecodedLen (s : String) : Nat := 3 * s.length / 4

/-- janus_nosip_srtp_cleanup (lines 317-350): clears the SRTP flags and
frees both directions of contexts and key material for both kinds. -/
def srtpCleanup (m : Media) : Media :=
  { m with autoack := true, require_srtp := false,
           has_srtp_local := false, has_srtp_remote := false,
           audio_srtp_out := none, audio_srtp_suite_out := 0,
           audio_srtp_in := none, audio_srtp_suite_in := 0,
           video_srtp_out := none, video_srtp_suite_out := 0,
           video_srtp_in := none, video_srtp_suite_in := 0 }

/-- janus_nosip_srtp_set_remote (lines 278-316): base64-decode the
crypto string, fail if shorter than the master length, otherwise install
the inbound context for the kind (srtp_create assumed to succeed). -/
def srtpSetRemote (m : Media) (video : Bool) (crypto : String) (suite : Nat) : Media :=
  if b64DecodedLen crypto < srtpMasterLength then m
  else if video then { m with video_srtp_in := some ⟨crypto, suite⟩ }
  else { m with audio_srtp_in := some ⟨crypto, suite⟩ }

/-- janus_nosip_srtp_set_local (lines 249-277): generate key material
(here: drawn from the key stream), create the outbound context and
return the base64 encoding for the crypto attribute. -/
def srtpSetLocal (keyB64 : Nat → String) (idx : Nat) (m : Media) (video : Bool) :
    Media × String :=
  let k := keyB64 idx
  (if video then { m with video_srtp_out := some k }
   else { m with audio_srtp_out := some k }, k)

/-- SDP media kinds as classified by janus_sdp_parse (JANUS_SDP_AUDIO,
JANUS_SDP_VIDEO, anything else). -/
inductive MType where
  | audio
  | video
  | other
deriving DecidableEq

/-- SDP direction attribute of a media section. -/
inductive MDirection where
  | sendrecv
  | sendonly
  | recvonly
  | inactive
deriving DecidableEq

/-- A parsed SDP media line (the janus_sdp_mline fields the plugin
reads or writes). -/
structure MLine where
  mtype : MType
  port : Nat := 0
  proto : Option String := none
  c_addr : Option String := none
  direction : MDirection := MDirection.sendrecv
  ptypes : List Int := []
  attributes : List (String × String) := []
deriving DecidableEq

/-- A parsed SDP (session-level connection address and media lines). -/
structure Sdp where
  c_addr : Option String := none
  m_lines : List MLine := []
deriving DecidableEq

/-- m->proto && !strcasecmp(m->proto, "RTP/SAVP") (line 1409). -/
def protoIsSavp : Option String → Bool
  | some p => strCaseEq p "RTP/SAVP"
  | none => false

/-- Direction gate derived from a media line direction: false for
sendonly and inactive, true otherwise (lines 1420-1423). -/
def sendFromDir : MDirection → Bool
  | MDirection.sendonly => false
  | MDirection.inactive => false
  | _ => true

/-- The crypto-attribute scan of one media section
(janus_nosip_sdp_process lines 1463-1496): the first parsable crypto
line of a kind whose inbound suite is still unset installs the remote
context and flips has_srtp_remote; later ones are skipped. -/
def processCryptoAttrs (video : Bool) : Media → List (String × String) → Media
  | m, [] => m
  | m, (name, value) :: rest =>
    let m :=
      if strCaseEq name "crypto" then
        match parseCrypto value with
        | none => m
        | some (_tag, suite, key) =>
          let cur := if video then m.video_srtp_suite_in else m.audio_srtp_suite_in
          if cur = 0 then
            let m := if video then { m with video_srtp_suite_in := suite }
                     else { m with audio_srtp_suite_in := suite }
            let m := srtpSetRemote m video key suite
            { m with has_srtp_remote := true }
          else m
      else m
    processCryptoAttrs video m rest

/-- On answers, latch the first payload type of the media line into the
session (lines 1497-1509 in sdp_process; 1560-1572 in sdp_manipulate). -/
def latchPt (answer video : Bool) (m : Media) (ml : MLine) : Media :=
  if answer then
    match ml.ptypes.head? with
    | some pt =>
      if pt > -1 then
        if video then { m with video_pt := pt } else { m with audio_pt := pt }
      else m
    | none => m
  else m

/-- Ingest of a single media line by janus_nosip_sdp_process
(lines 1406-1510): require_srtp sticks when the proto is RTP/SAVP; a
non-zero port marks the kind negotiated, records the remote ports
(RTCP assumed at port+1) and the direction gate, a zero port only
clears the gate; non-audio/video lines are skipped before the
section-level c= handling; updates stop before attributes; otherwise
crypto attributes are scanned and, on answers, the payload type is
latched. -/
def procLine (answer update : Bool) (m : Media) (changed : Bool) (ml : MLine) :
    Media × Bool :=
  let m := { m with require_srtp := m.require_srtp || protoIsSavp ml.proto }
  match ml.mtype with
  | MType.other => (m, changed)
  | mt =>
    let video := mt == MType.video
    let st :=
      if video then
        if ml.port ≠ 0 then
          (({ m with has_video := true, remote_video_rtp_port := ml.port,
                     remote_video_rtcp_port := ml.port + 1,
                     video_send := sendFromDir ml.direction } : Media),
           changed || decide (ml.port ≠ m.remote_video_rtp_port))
        else ({ m with video_send := false }, changed)
      else
        if ml.port ≠ 0 then
          (({ m with has_audio := true, remote_audio_rtp_port := ml.port,
                     remote_audio_rtcp_port := ml.port + 1,
                     audio_send := sendFromDir ml.direction } : Media),
           changed || decide (ml.port ≠ m.remote_audio_rtp_port))
        else ({ m with audio_send := false }, changed)
    let m := st.1
    let changed := st.2
    let st2 :=
      match ml.c_addr with
      | some a =>
        (({ m with remote_ip := some a } : Media),
         changed || (update && !(m.remote_ip == some a)))
      | none => (m, changed)
    let m := st2.1
    let changed := st2.2
    if update then (m, changed)
    else
      let m := processCryptoAttrs video m ml.attributes
      let m := latchPt answer video m ml
      (m, changed)

/-- The media-line loop of janus_nosip_sdp_process. -/
def procLines (answer update : Bool) : Media → Bool → List MLine → Media × Bool
  | m, changed, [] => (m, changed)
  | m, changed, ml :: rest =>
    let st := procLine answer update m changed ml
    procLines answer update st.1 st.2 rest

/-- janus_nosip_sdp_process (lines 1393-1523): session-level c=
updates remote_ip (flagging a change on updates), every media line is
ingested, and on updates a detected change sets the updated flag (and
pokes the wake pipe). -/
def sdpProcess (m : Media) (sdp : Sdp) (answer update : Bool) : Media × Bool :=
  let st0 :=
    match sdp.c_addr with
    | some a =>
      (({ m with remote_ip := some a } : Media),
       update && !(m.remote_ip == some a))
    | none => (m, false)
  let st := procLines answer update st0.1 st0.2 sdp.m_lines
  ((if update && st.2 then { st.1 with updated := true } else st.1), st.2)

/-- Rewrite of one media line by janus_nosip_sdp_manipulate
(lines 1530-1574): proto becomes RTP/SAVP or RTP/AVP from require_srtp,
audio/video ports are overwritten with the local RTP ports, with SRTP
negotiated locally a crypto attribute is appended (the source sets
audio_srtp_suite_out in the video branch too), the connection address
becomes the configured local IP, and on answers the payload type is
latched.  Returns the media, the rewritten line and the next key index. -/
def manipLine (localIp : String) (keyB64 : Nat → String) (answer : Bool)
    (m : Media) (idx : Nat) (ml : MLine) : Media × MLine × Nat :=
  let proto := some (if m.require_srtp then "RTP/SAVP" else "RTP/AVP")
  match ml.mtype with
  | MType.audio =>
    let st :=
      if m.has_srtp_local then
        let m2 := { m with audio_srtp_suite_out := 80 }
        let r := srtpSetLocal keyB64 idx m2 false
        (r.1, ml.attributes ++ [("crypto", "1 AES_CM_128_HMAC_SHA1_80 inline:" ++ r.2)],
         idx + 1)
      else (m, ml.attributes, idx)
    (latchPt answer false st.1 ml,
     { ml with proto := proto, port := m.local_audio_rtp_port,
               c_addr := some localIp, attributes := st.2.1 }, st.2.2)
  | MType.video =>
    let st :=
      if m.has_srtp_local then
        let m2 := { m with audio_srtp_suite_out := 80 }
        let r := srtpSetLocal keyB64 idx m2 true
        (r.1, ml.attributes ++ [("crypto", "1 AES_CM_128_HMAC_SHA1_80 inline:" ++ r.2)],
         idx + 1)
      else (m, ml.attributes, idx)
    (latchPt answer true st.1 ml,
     { ml with proto := proto, port := m.local_video_rtp_port,
               c_addr := some localIp, attributes := st.2.1 }, st.2.2)
  | MType.other =>
    (m, { ml with proto := proto, c_addr := some localIp }, idx)

/-- The media-line loop of janus_nosip_sdp_manipulate. -/
def manipLines (localIp : String) (keyB64 : Nat → String) (answer : Bool) :
    Media → Nat → List MLine → Media × List MLine
  | m, _, [] => (m, [])
  | m, idx, ml :: rest =>
    let st := manipLine localIp keyB64 answer m idx ml
    let st2 := manipLines localIp keyB64 answer st.1 st.2.2 rest
    (st2.1, st.2.1 :: st2.2)

/-- Symbolic file descriptors for the sockets and the pipe the
allocator creates (the kernel's descriptor numbering is irrelevant to
the claims; socket(2) and pipe(2) are assumed to succeed). -/
def audioRtpFdVal : Int := 10

def audioRtcpFdVal : Int := 11

def videoRtpFdVal : Int := 12

def videoRtcpFdVal : Int := 13

def pipeFd0Val : Int := 14

def pipeFd1Val : Int := 15

/-- Result of the per-kind bind loop: the bound port pair on success,
the socket fds as the loop leaves them, the remaining attempt budget
and the next index into the random stream. -/
structure KindAllocResult where
  ports : Option (Nat × Nat)
  rtpFd : Int
  rtcpFd : Int
  attemptsLeft : Nat
  idxNext : Nat
deriving DecidableEq

/-- One kind's while loop in janus_nosip_allocate_local_ports
(lines 1621-1665 for audio, 1670-1714 for video): while the budget
lasts, recreate any closed socket, draw a random port, round it up to
even, try to bind it as RTP and port+1 as RTCP; a failed RTP bind
closes the RTP socket, a failed RTCP bind closes both, each failure
costs one attempt.  bindOk is the bind(2) oracle, indexed by the draw
so that ports already taken can be modelled; picks is the
g_random_int_range stream. -/
def allocKindLoop (bindOk : Nat → Nat → Bool) (picks : Nat → Nat)
    (rtpFdVal rtcpFdVal : Int) :
    Nat → Nat → Int → Int → KindAllocResult
  | 0, idx, rtpFd, rtcpFd => ⟨none, rtpFd, rtcpFd, 0, idx⟩
  | a + 1, idx, rtpFd, rtcpFd =>
    let rtpFd := if rtpFd = -1 then rtpFdVal else rtpFd
    let rtcpFd := if rtcpFd = -1 then rtcpFdVal else rtcpFd
    let p := picks idx
    let rtpPort := if p % 2 = 1 then p + 1 else p
    if bindOk idx rtpPort then
      if bindOk idx (rtpPort + 1) then
        ⟨some (rtpPort, rtpPort + 1), rtpFd, rtcpFd, a + 1, idx + 1⟩
      else allocKindLoop bindOk picks rtpFdVal rtcpFdVal a (idx + 1) (-1) (-1)
    else allocKindLoop bindOk picks rtpFdVal rtcpFdVal a (idx + 1) (-1) rtcpFd

/-- Result of one kind's allocation stage. -/
structure StageResult where
  media : Media
  attemptsLeft : Nat
  idxNext : Nat
  ok : Bool
deriving DecidableEq

/-- The audio half of the allocator: run the bind loop when audio was
negotiated and store the resulting fds and ports. -/
def allocAudioStage (bindOk : Nat → Nat → Bool) (picks : Nat → Nat) (m : Media)
    (attempts idx : Nat) : StageResult :=
  if m.has_audio then
    let r := allocKindLoop bindOk picks audioRtpFdVal audioRtcpFdVal attempts idx
      m.audio_rtp_fd m.audio_rtcp_fd
    match r.ports with
    | some pq =>
      ⟨{ m with audio_rtp_fd := r.rtpFd, audio_rtcp_fd := r.rtcpFd,
                local_audio_rtp_port := pq.1, local_audio_rtcp_port := pq.2 },
       r.attemptsLeft, r.idxNext, true⟩
    | none =>
      ⟨{ m with audio_rtp_fd := r.rtpFd, audio_rtcp_fd := r.rtcpFd },
       r.attemptsLeft, r.idxNext, false⟩
  else ⟨m, attempts, idx, true⟩

/-- The video half of the allocator, sharing the attempt budget. -/
def allocVideoStage (bindOk : Nat → Nat → Bool) (picks : Nat → Nat) (m : Media)
    (attempts idx : Nat) : Media × Bool :=
  if m.has_video then
    let r := allocKindLoop bindOk picks videoRtpFdVal videoRtcpFdVal attempts idx
      m.video_rtp_fd m.video_rtcp_fd
    match r.ports with
    | some pq =>
      ({ m with video_rtp_fd := r.rtpFd, video_rtcp_fd := r.rtcpFd,
                local_video_rtp_port := pq.1, local_video_rtcp_port := pq.2 }, true)
    | none =>
      ({ m with video_rtp_fd := r.rtpFd, video_rtcp_fd := r.rtcpFd }, false)
  else (m, true)

/-- The reset prelude of janus_nosip_allocate_local_ports
(lines 1585-1615): close the sockets and the pipe, zero the local ports
and local SSRCs. -/
def resetPorts (m : Media) : Media :=
  { m with
    audio_rtp_fd := -1, audio_rtcp_fd := -1,
    local_audio_rtp_port := 0, local_audio_rtcp_port := 0, audio_ssrc := 0,
    video_rtp_fd := -1, video_rtcp_fd := -1,
    local_video_rtp_port := 0, local_video_rtcp_port := 0, video_ssrc := 0,
    pipefd0 := -1, pipefd1 := -1 }

/-- janus_nosip_allocate_local_ports (lines 1580-1719): reset all
sockets, local ports, local SSRCs and the pipe, then bind an RTP/RTCP
pair for each negotiated kind with a shared budget of 100 attempts, and
finally create the wake pipe (its return value is not checked by the
source).  Returns the updated media and whether allocation succeeded. -/
def allocateLocalPorts (bindOk : Nat → Nat → Bool) (picks : Nat → Nat) (m : Media) :
    Media × Bool :=
  let m := resetPorts m
  let ra := allocAudioStage bindOk picks m 100 0
  if ra.ok then
    let rv := allocVideoStage bindOk picks ra.media ra.attemptsLeft ra.idxNext
    if rv.2 then ({ rv.1 with pipefd0 := pipeFd0Val, pipefd1 := pipeFd1Val }, true)
    else (rv.1, false)
  else (ra.media, false)

/-- Replies the request handler can produce for the claims at hand:
the generated event (with the request type flag and the rewritten SDP),
the processed event (with its optional srtp field), or the error
envelope with its code. -/
inductive Reply where
  | generated (offer : Bool) (sdp : Sdp)
  | processed (srtpField : Option String)
  | errorReply (code : Nat)
deriving DecidableEq

/-- Whether a reply is the error envelope. -/
def isErrorReply : Reply → Bool
  | Reply.errorReply _ => true
  | _ => false

/-- Outcome of parsing the optional srtp request field
(lines 1024-1039): absent means no SDES, sdes_optional or
sdes_mandatory set do_srtp (and require_srtp for the latter), anything
else is the 444 error. -/
def srtpParse : Option String → Option (Bool × Bool)
  | none => some (false, false)
  | some s =>
    if strCaseEq s "sdes_optional" then some (true, false)
    else if strCaseEq s "sdes_mandatory" then some (true, true)
    else none

/-- The has_audio/has_video update of the generate path
(lines 1071-1078): a kind becomes negotiated when the SDP text contains
its m= marker but not the marker followed by a zero port.  The flags
are only ever raised. -/
def genFlags (m : Media) (msgSdp : String) : Media :=
  { m with
    has_audio := m.has_audio || (hasSub msgSdp "m=audio" && !hasSub msgSdp "m=audio 0"),
    has_video := m.has_video || (hasSub msgSdp "m=video" && !hasSub msgSdp "m=video 0") }

/-- The tail of the generate request after the SRTP bookkeeping
(lines 1069-1112 and the common answer epilogue at 1157-1168): raise
the negotiated-kind flags from the SDP text, allocate local ports
(failure is the 448 error), rewrite the parsed SDP — the handler passes
answer=FALSE to the manipulation (line 1086) — stash the rewritten SDP,
reply with the generated event, and on answers mark the media ready. -/
def generateRest (localIp : String) (keyB64 : Nat → String) (bindOk : Nat → Nat → Bool)
    (picks : Nat → Nat) (m : Media) (offer : Bool) (stash : Option Sdp)
    (msgSdp : String) (parsed : Sdp) : Media × Option Sdp × Reply :=
  let mf := genFlags m msgSdp
  let ar := allocateLocalPorts bindOk picks mf
  if ar.2 then
    let mr := manipLines localIp keyB64 false ar.1 0 parsed.m_lines
    let rew : Sdp := { c_addr := parsed.c_addr, m_lines := mr.2 }
    ((if offer then mr.1 else { mr.1 with ready := true }),
     some rew, Reply.generated offer rew)
  else (ar.1, stash, Reply.errorReply 448)

/-- The generate request body (janus_nosip_handler lines 1013-1112):
reject data channels (446) and bad srtp values (444); offers clean up
old SRTP state and install require_srtp/has_srtp_local from the
request; answers are rejected 450 when the offer required SRTP but the
peer offered none — otherwise the source computes
do_srtp || has_srtp_remote into a local variable it never reads again,
leaving has_srtp_local untouched — then the shared tail runs. -/
def generateBody (localIp : String) (keyB64 : Nat → String) (bindOk : Nat → Nat → Bool)
    (picks : Nat → Nat) (m : Media) (stash : Option Sdp) (offer : Bool)
    (srtpParam : Option String) (msgSdp : String) (parsed : Sdp) :
    Media × Option Sdp × Reply :=
  if hasSub msgSdp "m=application" then (m, stash, Reply.errorReply 446)
  else
    match srtpParse srtpParam with
    | none => (m, stash, Reply.errorReply 444)
    | some ds =>
      if offer then
        let m := srtpCleanup m
        let m := { m with require_srtp := ds.2, has_srtp_local := ds.1 }
        generateRest localIp keyB64 bindOk picks m offer stash msgSdp parsed
      else
        if m.require_srtp && !m.has_srtp_remote then (m, stash, Reply.errorReply 450)
        else generateRest localIp keyB64 bindOk picks m offer stash msgSdp parsed

/-- The process request body (janus_nosip_handler lines 1013-1018 and
1113-1168): reject data channels (446); offers clean up old SRTP state;
the peer SDP is ingested by sdp_process BEFORE the two validation
checks, so a 447 rejection (no negotiated audio/video, or no remote IP)
leaves the ingested fields behind; on success the parsed SDP is
stashed, the processed event carries the srtp field when remote SRTP
was installed, and answers mark the media ready (starting the relay). -/
def processBody (m : Media) (stash : Option Sdp) (offer : Bool)
    (msgSdp : String) (parsed : Sdp) : Media × Option Sdp × Reply :=
  if hasSub msgSdp "m=application" then (m, stash, Reply.errorReply 446)
  else
    let m1 := if offer then srtpCleanup m else m
    let pr := sdpProcess m1 parsed (!offer) false
    let m2 := pr.1
    if !m2.has_audio && !m2.has_video then (m2, stash, Reply.errorReply 447)
    else if m2.remote_ip.isNone then (m2, stash, Reply.errorReply 447)
    else
      ((if offer then m2 else { m2 with ready := true }), some parsed,
       Reply.processed (if m2.has_srtp_remote then
         some (if m2.require_srtp then "sdes_mandatory" else "sdes_optional")
       else none))

/-- libsrtp error codes the relay loop distinguishes. -/
def srtpOk : Nat := 0

/-- srtp_err_status_replay_fail. -/
def srtpReplayFail : Nat := 9

/-- srtp_err_status_replay_old. -/
def srtpReplayOld : Nat := 10

/-- Observable effects of handling one inbound packet in the relay
loop: whether an SRTP error was logged, whether the packet was handed
to the peer recorder, and whether it was relayed to the host. -/
structure RelayEff where
  logged : Bool
  recorded : Bool
  relayed : Bool
deriving DecidableEq

/-- The source's error filter at lines 1939 and 1983: only results that
are neither ok nor replay_fail nor replay_old count as errors. -/
def srtpBadErr (res : Nat) : Bool :=
  !(res == srtpOk) && !(res == srtpReplayFail) && !(res == srtpReplayOld)

/-- Inbound RTP handling in janus_nosip_relay_thread
(lines 1920-1975): latch a changed peer SSRC, then — when remote SRTP
is active — unprotect; a result other than ok/replay_fail/replay_old
logs and drops the packet, every other outcome (including the replay
failures) falls through to the recorder and relay_rtp.  The RTP
switching-context header rewrite only edits the forwarded header and is
not represented. -/
def relayRtpIn (m : Media) (video : Bool) (pktSsrc : Nat) (unprotectRes : Nat) :
    Media × RelayEff :=
  let m :=
    if video then
      if m.video_ssrc_peer ≠ pktSsrc then { m with video_ssrc_peer := pktSsrc } else m
    else
      if m.audio_ssrc_peer ≠ pktSsrc then { m with audio_ssrc_peer := pktSsrc } else m
  if m.has_srtp_remote then
    if srtpBadErr unprotectRes then (m, ⟨true, false, false⟩)
    else (m, ⟨false, true, true⟩)
  else (m, ⟨false, true, true⟩)

/-- Inbound RTCP handling in janus_nosip_relay_thread
(lines 1976-1993): same error filter, no recorder, relay_rtcp on
fall-through. -/
def relayRtcpIn (m : Media) (video : Bool) (unprotectRes : Nat) : Media × RelayEff :=
  if m.has_srtp_remote then
    if srtpBadErr unprotectRes then (m, ⟨true, false, false⟩)
    else (m, ⟨false, false, true⟩)
  else (m, ⟨false, false, true⟩)

/-- What the relay loop does with a POLLERR/POLLHUP descriptor. -/
inductive PollErrResult where
  | deferUpdate
  | ignore
  | softContinue
  | fatalExit
deriving DecidableEq

/-- ECONNREFUSED. -/
def econnrefused : Nat := 111

/-- The POLLERR/POLLHUP branch of the relay loop (lines 1868-1902): a
pending session update defers; SO_ERROR 0 is ignored; ECONNREFUSED
closes the matching RTCP socket — and merely continues when the
descriptor is not an RTCP socket; anything else closes the peer
connection and ends the loop. -/
def pollErrStep (m : Media) (fd : Int) (soErr : Nat) : Media × PollErrResult :=
  if m.updated then (m, PollErrResult.deferUpdate)
  else if soErr = 0 then (m, PollErrResult.ignore)
  else if soErr = econnrefused then
    if fd = m.audio_rtcp_fd then
      ({ m with audio_rtcp_fd := -1 }, PollErrResult.softContinue)
    else if fd = m.video_rtcp_fd then
      ({ m with video_rtcp_fd := -1 }, PollErrResult.softContinue)
    else (m, PollErrResult.softContinue)
  else (m, PollErrResult.fatalExit)

/-- Observable effects of the WebRTC-side RTP ingress shim. -/
structure IngressEff where
  dropped : Bool
  recorded : Bool
  sent : Bool
deriving DecidableEq

/-- janus_nosip_incoming_rtp (lines 752-818): a false direction gate
drops the packet outright; otherwise a still-zero local SSRC for the
kind is latched from the header; only when the kind is negotiated and
its RTP socket is open is the frame recorded and then sent — through
srtp_protect when local SRTP is active (protectOk is the srtp_protect
oracle; a protect error logs and skips the send). -/
def incomingRtp (m : Media) (video : Bool) (pktSsrc : Nat) (protectOk : Bool) :
    Media × IngressEff :=
  if (video && !m.video_send) || (!video && !m.audio_send) then
    (m, ⟨true, false, false⟩)
  else
    let m :=
      if video then
        if m.video_ssrc = 0 then { m with video_ssrc := pktSsrc } else m
      else
        if m.audio_ssrc = 0 then { m with audio_ssrc := pktSsrc } else m
    if (video && m.has_video && decide (m.video_rtp_fd ≠ -1)) ||
        (!video && m.has_audio && decide (m.audio_rtp_fd ≠ -1)) then
      if m.has_srtp_local then
        if protectOk then (m, ⟨false, true, true⟩) else (m, ⟨false, true, false⟩)
      else (m, ⟨false, true, true⟩)
    else (m, ⟨false, false, false⟩)

/-- Direction gate of a kind. -/
def sendOf (m : Media) (video : Bool) : Bool :=
  if video then m.video_send else m.audio_send

/-- Local SSRC of a kind. -/
def ssrcOf (m : Media) (video : Bool) : Nat :=
  if video then m.video_ssrc else m.audio_ssrc

/-- Negotiated flag of a kind. -/
def hasOf (m : Media) (video : Bool) : Bool :=
  if video then m.has_video else m.has_audio

/-- RTP socket of a kind. -/
def rtpFdOf (m : Media) (video : Bool) : Int :=
  if video then m.video_rtp_fd else m.audio_rtp_fd

/-- The fields a 447-rejected process request leaves untouched: the
ready flag, the four local ports and the four media sockets. -/
def coreView (m : Media) :
    Bool × (Nat × Nat × Nat × Nat) × (Int × Int × Int × Int) :=
  (m.ready,
   (m.local_audio_rtp_port, m.local_audio_rtcp_port,
    m.local_video_rtp_port, m.local_video_rtcp_port),
   (m.audio_rtp_fd, m.audio_rtcp_fd, m.video_rtp_fd, m.video_rtcp_fd))

/-- The media fields the SDP manipulation never writes: the negotiation
flags and SRTP mode, the local ports, the sockets and the ready flag. -/
def manipView (m : Media) :
    (Bool × Bool × Bool × Bool × Bool) × (Nat × Nat × Nat × Nat) ×
      (Int × Int × Int × Int) :=
  ((m.require_srtp, m.has_srtp_local, m.has_audio, m.has_video, m.ready),
   (m.local_audio_rtp_port, m.local_audio_rtcp_port,
    m.local_video_rtp_port, m.local_video_rtcp_port),
   (m.audio_rtp_fd, m.audio_rtcp_fd, m.video_rtp_fd, m.video_rtcp_fd))

/-- A crypto attribute of the exact shape the plugin generates:
name crypto, value tag 1 with the SHA1_80 suite and an inline key. -/
def isCryptoSha80 (a : String × String) : Bool :=
  a.1 == "crypto" && strStarts a.2 "1 AES_CM_128_HMAC_SHA1_80 inline:"

/-- Number of generated-shape crypto attributes on a media line. -/
def cryptoCount (attrs : List (String × String)) : Nat :=
  (attrs.filter isCryptoSha80).length

/-- Media state with only require_srtp raised: a session that sent an
SRTP-mandatory offer and received no crypto back. -/
def c1M : Media := { require_srtp := true }

/-- A plain-RTP audio answer: remote address, one audio section at port
40000 with proto RTP/AVP and no crypto attributes. -/
def c1Aline : MLine :=
  { mtype := MType.audio, port := 40000, proto := some "RTP/AVP", ptypes := [0] }

/-- The parsed plain-RTP answer for the C1 run. -/
def c1Sdp : Sdp := { c_addr := some "1.2.3.4", m_lines := [c1Aline] }

/-- The process-answer run of the C1 failing input. -/
def c1Run : Media × Option Sdp × Reply :=
  processBody c1M none false "v=0 m=audio 40000 RTP/AVP 0" c1Sdp

/-- Media state with remote SRTP installed (inbound crypto accepted). -/
def c2M : Media := { has_srtp_remote := true }

/-- An audio offer SDP with no session-level connection address. -/
def c3Sdp : Sdp := { m_lines := [c1Aline] }

/-- The process-offer run of the C3 counterexample. -/
def c3Run : Media × Option Sdp × Reply :=
  processBody initMedia none true "v=0 m=audio 40000 RTP/AVP 0" c3Sdp

/-- The media state the rejected C3 request leaves behind. -/
def c3MOut : Media :=
  { has_audio := true, remote_audio_rtp_port := 40000,
    remote_audio_rtcp_port := 40001, audio_send := true }

/-- Media state with all four sockets open, for the POLLERR analysis. -/
def c5M : Media :=
  { audio_rtp_fd := 5, audio_rtcp_fd := 6, video_rtp_fd := 7, video_rtcp_fd := 8 }

/-- A session negotiating both kinds, before allocation. -/
def c6M : Media := { has_audio := true, has_video := true }

/-- The state after a successful allocation run on c6M with every bind
succeeding and every random draw 10001. -/
def c6MOut : Media :=
  { c6M with
    audio_rtp_fd := 10, audio_rtcp_fd := 11,
    local_audio_rtp_port := 10002, local_audio_rtcp_port := 10003,
    video_rtp_fd := 12, video_rtcp_fd := 13,
    local_video_rtp_port := 10002, local_video_rtcp_port := 10003,
    pipefd0 := 14, pipefd1 := 15 }

/-- A session negotiating audio only, before allocation. -/
def c7M : Media := { has_audio := true }

/-- The state after a successful allocation run on c7M with every bind
succeeding and every random draw 10000. -/
def c7MOut : Media :=
  { c7M with
    audio_rtp_fd := 10, audio_rtcp_fd := 11,
    local_audio_rtp_port := 10000, local_audio_rtcp_port := 10001,
    pipefd0 := 14, pipefd1 := 15 }

/-- An audio media line offering plain RTP at port 4000, no crypto. -/
def c4In : MLine :=
  { mtype := MType.audio, port := 4000, proto := some "RTP/AVP", ptypes := [0] }

/-- The parsed SDP of the C4 sdes_mandatory offer run. -/
def c4Sdp : Sdp := { c_addr := some "9.9.9.9", m_lines := [c4In] }

/-- State after the successful sdes_mandatory generate-offer on a fresh
session: SRTP mandated locally, audio allocated at 10000/10001 with the
outbound key installed. -/
def c4MOut : Media :=
  { require_srtp := true, has_srtp_local := true, has_audio := true,
    audio_rtp_fd := 10, audio_rtcp_fd := 11,
    local_audio_rtp_port := 10000, local_audio_rtcp_port := 10001,
    audio_srtp_out := some "KEY", audio_srtp_suite_out := 80,
    pipefd0 := 14, pipefd1 := 15 }

/-- The rewritten audio line of the C4 run: RTP/SAVP, the allocated
local port, the configured local IP and one generated crypto attribute. -/
def c4Out : MLine :=
  { c4In with
    proto := some "RTP/SAVP", port := 10000, c_addr := some "10.0.0.1",
    attributes := [("crypto", "1 AES_CM_128_HMAC_SHA1_80 inline:KEY")] }

/-- The rewritten SDP of the C4 run. -/
def c4Rew : Sdp := { c_addr := some "9.9.9.9", m_lines := [c4Out] }

/-- A session that accepted remote SRTP, answering without the srtp
request field. -/
def c8M : Media := { has_srtp_remote := true }

/-- The audio line of the offer the C8 session answers. -/
def c8In : MLine :=
  { mtype := MType.audio, port := 4000, proto := some "RTP/AVP", ptypes := [0] }

/-- The parsed SDP of the C8 generate-answer run. -/
def c8Sdp : Sdp := { c_addr := some "9.9.9.9", m_lines := [c8In] }

/-- The rewritten audio line of the C8 run: plain RTP because
has_srtp_local was never inherited from has_srtp_remote. -/
def c8Out : MLine :=
  { c8In with
    proto := some "RTP/AVP", port := 10000, c_addr := some "10.0.0.1" }

/-- The rewritten SDP of the C8 run. -/
def c8Rew : Sdp := { c_addr := some "9.9.9.9", m_lines := [c8Out] }

/-- The generate-answer run on the remote-SRTP session. -/
def c8Run : Media × Option Sdp × Reply :=
  generateBody "10.0.0.1" (fun _ => "KEY") (fun _ _ => true) (fun _ => 10000)
    c8M none false none "v=0 m=audio 4000 RTP/AVP 0" c8Sdp

/-- A session whose pending offer mandated SRTP with no remote crypto
accepted: the 450 case of the generate-answer gate. -/
def c8RejM : Media := { require_srtp := true }

/-- A video media line at port 5000, the only negotiated kind of the
C9 run. -/
def c9In : MLine :=
  { mtype := MType.video, port := 5000, proto := some "RTP/AVP", ptypes := [96] }

/-- The parsed SDP of the C9 run: the audio section was declined with
port 0, only video remains. -/
def c9Sdp : Sdp := { c_addr := some "9.9.9.9", m_lines := [c9In] }

/-- State after the C9 generate-offer: video allocated at 10000/10001
on sockets 12/13, the audio side untouched at its reset values. -/
def c9MOut : Media :=
  { has_video := true, video_rtp_fd := 12, video_rtcp_fd := 13,
    local_video_rtp_port := 10000, local_video_rtcp_port := 10001,
    pipefd0 := 14, pipefd1 := 15 }

/-- The rewritten video line of the C9 run. -/
def c9Out : MLine :=
  { c9In with
    proto := some "RTP/AVP", port := 10000, c_addr := some "10.0.0.1" }

/-- The rewritten SDP of the C9 run. -/
def c9Rew : Sdp := { c_addr := some "9.9.9.9", m_lines := [c9Out] }

end NoSip

namespace NoSip

/-- srtpBadErr is false exactly on ok and the two replay results. -/
theorem srtpBadErr_false_of (res : Nat)
    (h : res = srtpOk ∨ res = srtpReplayFail ∨ res = srtpReplayOld) :
    srtpBadErr res = false := by
  rcases h with h | h | h <;> subst h <;> rfl

/-- srtpBadErr is true on every other unprotect result. -/
theorem srtpBadErr_true_of (res : Nat) (h0 : res ≠ srtpOk)
    (h9 : res ≠ srtpReplayFail) (h10 : res ≠ srtpReplayOld) :
    srtpBadErr res = true := by
  unfold srtpBadErr
  simp only [Bool.and_eq_true, Bool.not_eq_true', beq_eq_false_iff_ne, ne_eq]
  exact ⟨⟨h0, h9⟩, h10⟩

/-- The relayed/recorded/logged outcome of inbound RTP only depends on
has_srtp_remote and the unprotect result. -/
theorem relayRtpIn_eff (m : Media) (video : Bool) (s res : Nat) :
    (relayRtpIn m video s res).2 =
      (if m.has_srtp_remote then
        (if srtpBadErr res then ⟨true, false, false⟩ else ⟨false, true, true⟩)
       else ⟨false, true, true⟩) := by
  unfold relayRtpIn
  cases video <;> dsimp only
  · by_cases h : m.audio_ssrc_peer ≠ s <;> simp [h] <;> split_ifs <;> rfl
  · by_cases h : m.video_ssrc_peer ≠ s <;> simp [h] <;> split_ifs <;> rfl

/-- The SSRC latch does not disturb the stored remote SRTP state. -/
theorem relayRtpIn_srtp (m : Media) (video : Bool) (s res : Nat) :
    (relayRtpIn m video s res).1.has_srtp_remote = m.has_srtp_remote := by
  unfold relayRtpIn
  cases video <;> dsimp only
  · by_cases h : m.audio_ssrc_peer ≠ s <;> simp [h] <;> split <;> (try split) <;> rfl
  · by_cases h : m.video_ssrc_peer ≠ s <;> simp [h] <;> split <;> (try split) <;> rfl

/-- Claim C2 (corrected): in the relay loop with remote SRTP active, an
unprotect result of ok, replay_fail or replay_old lets the packet
through — it is not logged, RTP is recorded and relayed, RTCP is
relayed — while any other result logs and drops it (no recording, no
relay), for RTP and RTCP alike. -/
theorem c2_unprotect_error_policy (m : Media) (video : Bool) (s res : Nat)
    (hrem : m.has_srtp_remote = true) :
    ((res = srtpOk ∨ res = srtpReplayFail ∨ res = srtpReplayOld) →
      (relayRtpIn m video s res).2 = ⟨false, true, true⟩ ∧
      (relayRtcpIn m video res).2 = ⟨false, false, true⟩) ∧
    (res ≠ srtpOk → res ≠ srtpReplayFail → res ≠ srtpReplayOld →
      (relayRtpIn m video s res).2 = ⟨true, false, false⟩ ∧
      (relayRtcpIn m video res).2 = ⟨true, false, false⟩) := by
  constructor
  · intro h
    have hb := srtpBadErr_false_of res h
    rw [relayRtpIn_eff, hrem, hb]
    unfold relayRtcpIn
    rw [hrem, hb]
    exact ⟨rfl, rfl⟩
  · intro h0 h9 h10
    have hb := srtpBadErr_true_of res h0 h9 h10
    rw [relayRtpIn_eff, hrem, hb]
    unfold relayRtcpIn
    rw [hrem, hb]
    exact ⟨rfl, rfl⟩

/-- Witness for C2: a replay_old RTP and RTCP packet on an SRTP session
is forwarded, and a decode-error packet is logged and dropped. -/
theorem c2_unprotect_error_policy_inst :
    c2M.has_srtp_remote = true ∧
    ((relayRtpIn c2M true 5 srtpReplayOld).2 = (⟨false, true, true⟩ : RelayEff) ∧
     (relayRtcpIn c2M true srtpReplayOld).2 = (⟨false, false, true⟩ : RelayEff)) :=
  ⟨rfl, (c2_unprotect_error_policy c2M true 5 srtpReplayOld rfl).1
    (Or.inr (Or.inr rfl))⟩

/-- Counterexample for C2 as stated: with remote SRTP active, a packet
whose unprotect returns replay_fail is NOT dropped — it is recorded and
relayed to the host, and an RTCP replay_old packet is relayed too. -/
theorem c2_replay_packet_relayed :
    (relayRtpIn c2M false 123 srtpReplayFail).2.relayed = true ∧
    (relayRtpIn c2M false 123 srtpReplayFail).2.recorded = true ∧
    (relayRtcpIn c2M false srtpReplayOld).2.relayed = true := by decide

/-- Claim C5 (corrected): the POLLERR/POLLHUP branch with no pending
update ignores SO_ERROR 0; on ECONNREFUSED it closes the matching RTCP
socket and continues, and merely continues when the descriptor is not
an RTCP socket (RTP sockets included); any other error is fatal. -/
theorem c5_pollerr_soerror_policy (m : Media) (fd : Int) (soErr : Nat)
    (hup : m.updated = false) :
    (soErr = 0 → pollErrStep m fd soErr = (m, PollErrResult.ignore)) ∧
    (soErr = econnrefused →
      (fd = m.audio_rtcp_fd →
        pollErrStep m fd soErr = ({ m with audio_rtcp_fd := -1 }, PollErrResult.softContinue)) ∧
      (fd ≠ m.audio_rtcp_fd → fd = m.video_rtcp_fd →
        pollErrStep m fd soErr = ({ m with video_rtcp_fd := -1 }, PollErrResult.softContinue)) ∧
      (fd ≠ m.audio_rtcp_fd → fd ≠ m.video_rtcp_fd →
        pollErrStep m fd soErr = (m, PollErrResult.softContinue))) ∧
    (soErr ≠ 0 → soErr ≠ econnrefused →
      pollErrStep m fd soErr = (m, PollErrResult.fatalExit)) := by
  refine ⟨?_, ?_, ?_⟩
  · intro h; subst h; simp [pollErrStep, hup]
  · intro h; subst h
    refine ⟨?_, ?_, ?_⟩
    · intro hfd; subst hfd; simp [pollErrStep, hup, econnrefused]
    · intro hfd1 hfd2; subst hfd2; simp [pollErrStep, hup, econnrefused, hfd1]
    · intro hfd1 hfd2; simp [pollErrStep, hup, econnrefused, hfd1, hfd2]
  · intro h0 h1; simp [pollErrStep, hup, h0, h1]

/-- Witness for C5: ECONNREFUSED on the audio RTCP socket closes just
that socket and the loop continues. -/
theorem c5_pollerr_soerror_policy_inst :
    c5M.updated = false ∧
    pollErrStep c5M 6 econnrefused =
      ({ c5M with audio_rtcp_fd := -1 }, PollErrResult.softContinue) :=
  ⟨rfl, ((c5_pollerr_soerror_policy c5M 6 econnrefused rfl).2.1 rfl).1 rfl⟩

/-- Counterexample for C5 as stated: ECONNREFUSED on the audio RTP
socket does not close the peer connection or end the loop — the state
is untouched and the loop just continues. -/
theorem c5_connrefused_rtp_not_fatal :
    pollErrStep c5M 5 econnrefused = (c5M, PollErrResult.softContinue) ∧
    PollErrResult.softContinue ≠ PollErrResult.fatalExit := by decide

/-- Claim C10 (confirmed): the RTP ingress shim drops the packet before
anything else when the direction gate is off; with the gate on, a
still-zero local SSRC is latched from the packet even for kinds that
are not negotiated or whose RTP socket is closed, and in those cases
nothing is recorded or sent. -/
theorem c10_incoming_rtp_gate_and_latch (m : Media) (video : Bool) (s : Nat)
    (protectOk : Bool) :
    (sendOf m video = false →
      incomingRtp m video s protectOk = (m, ⟨true, false, false⟩)) ∧
    (sendOf m video = true → ssrcOf m video = 0 →
      ssrcOf (incomingRtp m video s protectOk).1 video = s) ∧
    (sendOf m video = true →
      (hasOf m video = false ∨ rtpFdOf m video = -1) →
      (incomingRtp m video s protectOk).2.recorded = false ∧
      (incomingRtp m video s protectOk).2.sent = false) := by
  cases video <;>
    refine ⟨?_, ?_, ?_⟩ <;>
    simp only [sendOf, ssrcOf, hasOf, rtpFdOf, if_true, if_false, Bool.false_eq_true,
      reduceIte] <;>
    intro h1
  · simp [incomingRtp, h1]
  · intro h2
    simp [incomingRtp, h1, h2]
    split <;> (try split) <;> (try split) <;> simp_all
  · intro h2
    rcases h2 with h2 | h2 <;>
      simp [incomingRtp, h1, h2] <;>
      (try split) <;> (try split) <;> (try split) <;> simp_all
  · simp [incomingRtp, h1]
  · intro h2
    simp [incomingRtp, h1, h2]
    split <;> (try split) <;> (try split) <;> simp_all
  · intro h2
    rcases h2 with h2 | h2 <;>
      simp [incomingRtp, h1, h2] <;>
      (try split) <;> (try split) <;> (try split) <;> simp_all

/-- Witness for C10: a packet for the non-negotiated audio kind of a
fresh session passes the gate, latches the SSRC, and is neither
recorded nor sent. -/
theorem c10_incoming_rtp_gate_and_latch_inst :
    (sendOf initMedia false = true ∧ ssrcOf initMedia false = 0 ∧
     hasOf initMedia false = false) ∧
    ssrcOf (incomingRtp initMedia false 7 true).1 false = 7 ∧
    ((incomingRtp initMedia false 7 true).2.recorded = false ∧
     (incomingRtp initMedia false 7 true).2.sent = false) :=
  ⟨⟨rfl, rfl, rfl⟩,
   (c10_incoming_rtp_gate_and_latch initMedia false 7 true).2.1 rfl rfl,
   (c10_incoming_rtp_gate_and_latch initMedia false 7 true).2.2 rfl (Or.inl rfl)⟩

/-- Claim C1 (code bug): a process request with a plain-RTP answer on a
session whose offer demanded SRTP is accepted — the reply is the
processed event, has_srtp_remote stays false even though require_srtp
is still set, and the media is marked ready (the relay starts).  The
450 rejection the specification demands exists only in the
generate-answer path. -/
theorem c1_process_plain_answer_accepted :
    c1Run.2.2 = Reply.processed none ∧
    c1Run.1.has_srtp_remote = false ∧
    c1Run.1.require_srtp = true ∧
    c1Run.1.ready = true := by decide

end NoSip

namespace NoSip

/-- Any successful pass of the per-kind bind loop returns an even RTP
port, RTCP at RTP plus one, and an RTP port within one of some random
draw (the odd-to-even round-up). -/
theorem allocKindLoop_ports (bindOk : Nat → Nat → Bool) (picks : Nat → Nat)
    (A B : Int) :
    ∀ fuel idx rtpFd rtcpFd p q,
      (allocKindLoop bindOk picks A B fuel idx rtpFd rtcpFd).ports = some (p, q) →
      q = p + 1 ∧ p % 2 = 0 ∧ ∃ j, picks j ≤ p ∧ p ≤ picks j + 1 := by
  intro fuel
  induction fuel with
  | zero =>
    intro idx rtpFd rtcpFd p q h
    rw [allocKindLoop] at h
    exact absurd h (by simp)
  | succ a ih =>
    intro idx rtpFd rtcpFd p q h
    rw [allocKindLoop] at h
    by_cases h1 : bindOk idx (if picks idx % 2 = 1 then picks idx + 1 else picks idx) = true
    · rw [if_pos h1] at h
      by_cases h2 : bindOk idx ((if picks idx % 2 = 1 then picks idx + 1 else picks idx) + 1) = true
      · rw [if_pos h2] at h
        simp only [Option.some.injEq, Prod.mk.injEq] at h
        obtain ⟨hp, hq⟩ := h
        subst hp
        subst hq
        refine ⟨rfl, ?_, idx, ?_, ?_⟩ <;> split_ifs with hpar <;> omega
      · rw [if_neg h2] at h
        exact ih _ _ _ _ _ h
    · rw [if_neg h1] at h
      exact ih _ _ _ _ _ h

/-- With every random draw inside [lo, hi-1] (the contract of
g_random_int_range(lo, hi)), a successful bind-loop RTP port lies in
[lo, hi]. -/
theorem allocKindLoop_ports_range (bindOk : Nat → Nat → Bool) (picks : Nat → Nat)
    (A B : Int) (lo hi : Nat) (hb : ∀ i, lo ≤ picks i ∧ picks i < hi)
    (fuel idx : Nat) (rtpFd rtcpFd : Int) (p q : Nat)
    (h : (allocKindLoop bindOk picks A B fuel idx rtpFd rtcpFd).ports = some (p, q)) :
    lo ≤ p ∧ p ≤ hi := by
  obtain ⟨-, -, j, hj1, hj2⟩ :=
    allocKindLoop_ports bindOk picks A B fuel idx rtpFd rtcpFd p q h
  obtain ⟨hbj1, hbj2⟩ := hb j
  omega

/-- The audio allocation stage does not modify anything but the audio
sockets and audio local ports. -/
theorem allocAudioStage_pres (bindOk : Nat → Nat → Bool) (picks : Nat → Nat)
    (m : Media) (a i : Nat) :
    (allocAudioStage bindOk picks m a i).media.has_audio = m.has_audio ∧
    (allocAudioStage bindOk picks m a i).media.has_video = m.has_video ∧
    (allocAudioStage bindOk picks m a i).media.require_srtp = m.require_srtp ∧
    (allocAudioStage bindOk picks m a i).media.has_srtp_local = m.has_srtp_local ∧
    (allocAudioStage bindOk picks m a i).media.has_srtp_remote = m.has_srtp_remote ∧
    (allocAudioStage bindOk picks m a i).media.ready = m.ready ∧
    (allocAudioStage bindOk picks m a i).media.remote_ip = m.remote_ip ∧
    (allocAudioStage bindOk picks m a i).media.local_video_rtp_port = m.local_video_rtp_port ∧
    (allocAudioStage bindOk picks m a i).media.local_video_rtcp_port = m.local_video_rtcp_port ∧
    (allocAudioStage bindOk picks m a i).media.video_rtp_fd = m.video_rtp_fd ∧
    (allocAudioStage bindOk picks m a i).media.video_rtcp_fd = m.video_rtcp_fd := by
  simp only [allocAudioStage]
  split <;> (try split) <;> simp

/-- The video allocation stage does not modify anything but the video
sockets and video local ports. -/
theorem allocVideoStage_pres (bindOk : Nat → Nat → Bool) (picks : Nat → Nat)
    (m : Media) (a i : Nat) :
    (allocVideoStage bindOk picks m a i).1.has_audio = m.has_audio ∧
    (allocVideoStage bindOk picks m a i).1.has_video = m.has_video ∧
    (allocVideoStage bindOk picks m a i).1.require_srtp = m.require_srtp ∧
    (allocVideoStage bindOk picks m a i).1.has_srtp_local = m.has_srtp_local ∧
    (allocVideoStage bindOk picks m a i).1.has_srtp_remote = m.has_srtp_remote ∧
    (allocVideoStage bindOk picks m a i).1.ready = m.ready ∧
    (allocVideoStage bindOk picks m a i).1.remote_ip = m.remote_ip ∧
    (allocVideoStage bindOk picks m a i).1.local_audio_rtp_port = m.local_audio_rtp_port ∧
    (allocVideoStage bindOk picks m a i).1.local_audio_rtcp_port = m.local_audio_rtcp_port ∧
    (allocVideoStage bindOk picks m a i).1.audio_rtp_fd = m.audio_rtp_fd ∧
    (allocVideoStage bindOk picks m a i).1.audio_rtcp_fd = m.audio_rtcp_fd := by
  simp only [allocVideoStage]
  split <;> (try split) <;> simp

/-- A successful audio stage on a session with audio negotiated stores
a port pair produced by the bind loop. -/
theorem allocAudioStage_ports (bindOk : Nat → Nat → Bool) (picks : Nat → Nat)
    (m : Media) (a i : Nat) (hA : m.has_audio = true)
    (hok : (allocAudioStage bindOk picks m a i).ok = true) :
    ∃ p q, (allocKindLoop bindOk picks audioRtpFdVal audioRtcpFdVal a i
        m.audio_rtp_fd m.audio_rtcp_fd).ports = some (p, q) ∧
      (allocAudioStage bindOk picks m a i).media.local_audio_rtp_port = p ∧
      (allocAudioStage bindOk picks m a i).media.local_audio_rtcp_port = q := by
  simp only [allocAudioStage] at hok ⊢
  rw [if_pos hA] at hok ⊢
  rcases hr : (allocKindLoop bindOk picks audioRtpFdVal audioRtcpFdVal a i
      m.audio_rtp_fd m.audio_rtcp_fd).ports with - | pq
  · rw [hr] at hok
    simp at hok
  · refine ⟨pq.1, pq.2, ?_, ?_, ?_⟩ <;> simp

/-- A successful video stage on a session with video negotiated stores
a port pair produced by the bind loop. -/
theorem allocVideoStage_ports (bindOk : Nat → Nat → Bool) (picks : Nat → Nat)
    (m : Media) (a i : Nat) (hV : m.has_video = true)
    (hok : (allocVideoStage bindOk picks m a i).2 = true) :
    ∃ p q, (allocKindLoop bindOk picks videoRtpFdVal videoRtcpFdVal a i
        m.video_rtp_fd m.video_rtcp_fd).ports = some (p, q) ∧
      (allocVideoStage bindOk picks m a i).1.local_video_rtp_port = p ∧
      (allocVideoStage bindOk picks m a i).1.local_video_rtcp_port = q := by
  simp only [allocVideoStage] at hok ⊢
  rw [if_pos hV] at hok ⊢
  rcases hr : (allocKindLoop bindOk picks videoRtpFdVal videoRtcpFdVal a i
      m.video_rtp_fd m.video_rtcp_fd).ports with - | pq
  · rw [hr] at hok
    simp at hok
  · refine ⟨pq.1, pq.2, ?_, ?_, ?_⟩ <;> simp

/-- Successful allocation decomposes into a successful audio stage, a
successful video stage on its output, and the pipe creation. -/
theorem allocateLocalPorts_split (bindOk : Nat → Nat → Bool) (picks : Nat → Nat)
    (m m' : Media) (h : allocateLocalPorts bindOk picks m = (m', true)) :
    (allocAudioStage bindOk picks (resetPorts m) 100 0).ok = true ∧
    (allocVideoStage bindOk picks (allocAudioStage bindOk picks (resetPorts m) 100 0).media
      (allocAudioStage bindOk picks (resetPorts m) 100 0).attemptsLeft
      (allocAudioStage bindOk picks (resetPorts m) 100 0).idxNext).2 = true ∧
    m' = { (allocVideoStage bindOk picks (allocAudioStage bindOk picks (resetPorts m) 100 0).media
      (allocAudioStage bindOk picks (resetPorts m) 100 0).attemptsLeft
      (allocAudioStage bindOk picks (resetPorts m) 100 0).idxNext).1 with
        pipefd0 := pipeFd0Val, pipefd1 := pipeFd1Val } := by
  simp only [allocateLocalPorts] at h
  split at h
  · split at h
    · simp only [Prod.mk.injEq] at h
      exact ⟨by assumption, by assumption, h.1.symm⟩
    · simp at h
  · simp at h

end NoSip

namespace NoSip

/-- Claim C6 (confirmed): after a successful allocation, each
negotiated kind has an even local RTP port and a local RTCP port equal
to the RTP port plus one. -/
theorem c6_local_ports_even_adjacent (bindOk : Nat → Nat → Bool) (picks : Nat → Nat)
    (m m' : Media) (h : allocateLocalPorts bindOk picks m = (m', true)) :
    (m.has_audio = true →
      m'.local_audio_rtcp_port = m'.local_audio_rtp_port + 1 ∧
      m'.local_audio_rtp_port % 2 = 0) ∧
    (m.has_video = true →
      m'.local_video_rtcp_port = m'.local_video_rtp_port + 1 ∧
      m'.local_video_rtp_port % 2 = 0) := by
  obtain ⟨hok1, hok2, hm⟩ := allocateLocalPorts_split bindOk picks m m' h
  subst hm
  constructor
  · intro hAud
    have hAmr : (resetPorts m).has_audio = true := hAud
    obtain ⟨p, q, hpq, hp1, hp2⟩ :=
      allocAudioStage_ports bindOk picks (resetPorts m) 100 0 hAmr hok1
    obtain ⟨hq1, hpar, -⟩ :=
      allocKindLoop_ports bindOk picks audioRtpFdVal audioRtcpFdVal 100 0
        (resetPorts m).audio_rtp_fd (resetPorts m).audio_rtcp_fd p q hpq
    obtain ⟨-, -, -, -, -, -, -, hvp, hvq, -, -⟩ :=
      allocVideoStage_pres bindOk picks
        (allocAudioStage bindOk picks (resetPorts m) 100 0).media
        (allocAudioStage bindOk picks (resetPorts m) 100 0).attemptsLeft
        (allocAudioStage bindOk picks (resetPorts m) 100 0).idxNext
    constructor
    · show (allocVideoStage bindOk picks _ _ _).1.local_audio_rtcp_port =
        (allocVideoStage bindOk picks _ _ _).1.local_audio_rtp_port + 1
      rw [hvp, hvq, hp1, hp2, hq1]
    · show (allocVideoStage bindOk picks _ _ _).1.local_audio_rtp_port % 2 = 0
      rw [hvp, hp1]
      exact hpar
  · intro hVid
    have hVra : (allocAudioStage bindOk picks (resetPorts m) 100 0).media.has_video = true := by
      obtain ⟨-, hv2, -⟩ :=
        allocAudioStage_pres bindOk picks (resetPorts m) 100 0
      rw [hv2]
      exact hVid
    obtain ⟨p, q, hpq, hp1, hp2⟩ :=
      allocVideoStage_ports bindOk picks
        (allocAudioStage bindOk picks (resetPorts m) 100 0).media
        (allocAudioStage bindOk picks (resetPorts m) 100 0).attemptsLeft
        (allocAudioStage bindOk picks (resetPorts m) 100 0).idxNext hVra hok2
    obtain ⟨hq1, hpar, -⟩ :=
      allocKindLoop_ports bindOk picks videoRtpFdVal videoRtcpFdVal _ _ _ _ p q hpq
    constructor
    · show (allocVideoStage bindOk picks _ _ _).1.local_video_rtcp_port =
        (allocVideoStage bindOk picks _ _ _).1.local_video_rtp_port + 1
      rw [hp1, hp2, hq1]
    · show (allocVideoStage bindOk picks _ _ _).1.local_video_rtp_port % 2 = 0
      rw [hp1]
      exact hpar

/-- Witness for C6: a run negotiating both kinds with draws of 10001
yields ports 10002/10003 for each kind. -/
theorem c6_local_ports_even_adjacent_inst :
    (allocateLocalPorts (fun _ _ => true) (fun _ => 10001) c6M = (c6MOut, true) ∧
     c6M.has_audio = true) ∧
    (c6MOut.local_audio_rtcp_port = c6MOut.local_audio_rtp_port + 1 ∧
     c6MOut.local_audio_rtp_port % 2 = 0) :=
  ⟨⟨by decide, rfl⟩,
   (c6_local_ports_even_adjacent (fun _ _ => true) (fun _ => 10001) c6M c6MOut
     (by decide)).1 rfl⟩

/-- Claim C7 (corrected): with draws from [lo, hi-1] as
g_random_int_range(lo, hi) guarantees, a successful allocation puts
every negotiated local RTP port in [lo, hi] but only bounds the RTCP
port by hi+1: the round-up of draw hi-1 gives RTP hi and RTCP hi+1,
one past the configured maximum. -/
theorem c7_allocated_ports_bounds (bindOk : Nat → Nat → Bool) (picks : Nat → Nat)
    (lo hi : Nat) (hb : ∀ i, lo ≤ picks i ∧ picks i < hi)
    (m m' : Media) (h : allocateLocalPorts bindOk picks m = (m', true)) :
    (m.has_audio = true →
      lo ≤ m'.local_audio_rtp_port ∧ m'.local_audio_rtp_port ≤ hi ∧
      lo ≤ m'.local_audio_rtcp_port ∧ m'.local_audio_rtcp_port ≤ hi + 1) ∧
    (m.has_video = true →
      lo ≤ m'.local_video_rtp_port ∧ m'.local_video_rtp_port ≤ hi ∧
      lo ≤ m'.local_video_rtcp_port ∧ m'.local_video_rtcp_port ≤ hi + 1) := by
  obtain ⟨hok1, hok2, hm⟩ := allocateLocalPorts_split bindOk picks m m' h
  subst hm
  constructor
  · intro hAud
    have hAmr : (resetPorts m).has_audio = true := hAud
    obtain ⟨p, q, hpq, hp1, hp2⟩ :=
      allocAudioStage_ports bindOk picks (resetPorts m) 100 0 hAmr hok1
    obtain ⟨hq1, -, -⟩ :=
      allocKindLoop_ports bindOk picks audioRtpFdVal audioRtcpFdVal 100 0
        (resetPorts m).audio_rtp_fd (resetPorts m).audio_rtcp_fd p q hpq
    obtain ⟨hlo, hhi⟩ :=
      allocKindLoop_ports_range bindOk picks audioRtpFdVal audioRtcpFdVal lo hi hb
        100 0 (resetPorts m).audio_rtp_fd (resetPorts m).audio_rtcp_fd p q hpq
    obtain ⟨-, -, -, -, -, -, -, hvp, hvq, -, -⟩ :=
      allocVideoStage_pres bindOk picks
        (allocAudioStage bindOk picks (resetPorts m) 100 0).media
        (allocAudioStage bindOk picks (resetPorts m) 100 0).attemptsLeft
        (allocAudioStage bindOk picks (resetPorts m) 100 0).idxNext
    refine ⟨?_, ?_, ?_, ?_⟩
    · show lo ≤ (allocVideoStage bindOk picks _ _ _).1.local_audio_rtp_port
      rw [hvp, hp1]
      exact hlo
    · show (allocVideoStage bindOk picks _ _ _).1.local_audio_rtp_port ≤ hi
      rw [hvp, hp1]
      exact hhi
    · show lo ≤ (allocVideoStage bindOk picks _ _ _).1.local_audio_rtcp_port
      rw [hvq, hp2, hq1]
      omega
    · show (allocVideoStage bindOk picks _ _ _).1.local_audio_rtcp_port ≤ hi + 1
      rw [hvq, hp2, hq1]
      omega
  · intro hVid
    have hVra : (allocAudioStage bindOk picks (resetPorts m) 100 0).media.has_video = true := by
      obtain ⟨-, hv2, -⟩ :=
        allocAudioStage_pres bindOk picks (resetPorts m) 100 0
      rw [hv2]
      exact hVid
    obtain ⟨p, q, hpq, hp1, hp2⟩ :=
      allocVideoStage_ports bindOk picks
        (allocAudioStage bindOk picks (resetPorts m) 100 0).media
        (allocAudioStage bindOk picks (resetPorts m) 100 0).attemptsLeft
        (allocAudioStage bindOk picks (resetPorts m) 100 0).idxNext hVra hok2
    obtain ⟨hq1, -, -⟩ :=
      allocKindLoop_ports bindOk picks videoRtpFdVal videoRtcpFdVal _ _ _ _ p q hpq
    obtain ⟨hlo, hhi⟩ :=
      allocKindLoop_ports_range bindOk picks videoRtpFdVal videoRtcpFdVal lo hi hb
        _ _ _ _ p q hpq
    refine ⟨?_, ?_, ?_, ?_⟩
    · show lo ≤ (allocVideoStage bindOk picks _ _ _).1.local_video_rtp_port
      rw [hp1]
      exact hlo
    · show (allocVideoStage bindOk picks _ _ _).1.local_video_rtp_port ≤ hi
      rw [hp1]
      exact hhi
    · show lo ≤ (allocVideoStage bindOk picks _ _ _).1.local_video_rtcp_port
      rw [hp2, hq1]
      omega
    · show (allocVideoStage bindOk picks _ _ _).1.local_video_rtcp_port ≤ hi + 1
      rw [hp2, hq1]
      omega

/-- Witness for C7: draws of 10000 in range [10000, 60000) give audio
ports 10000/10001 within the amended bounds. -/
theorem c7_allocated_ports_bounds_inst :
    (allocateLocalPorts (fun _ _ => true) (fun _ => 10000) c7M = (c7MOut, true) ∧
     c7M.has_audio = true) ∧
    (10000 ≤ c7MOut.local_audio_rtp_port ∧ c7MOut.local_audio_rtp_port ≤ 60000 ∧
     10000 ≤ c7MOut.local_audio_rtcp_port ∧ c7MOut.local_audio_rtcp_port ≤ 60001) :=
  ⟨⟨by decide, rfl⟩,
   (c7_allocated_ports_bounds (fun _ _ => true) (fun _ => 10000) 10000 60000
     (fun _ => ⟨Nat.le_refl _, (by norm_num : (10000:Nat) < 60000)⟩) c7M c7MOut
     (by decide)).1 rfl⟩

/-- Counterexample for C7 as stated: with the default range
[10000, 60000] the legal draw 59999 rounds up to RTP port 60000, whose
RTCP companion 60001 lies outside the configured range. -/
theorem c7_rtcp_port_above_max :
    (10000 ≤ 59999 ∧ 59999 < 60000) ∧
    (allocateLocalPorts (fun _ _ => true) (fun _ => 59999) c7M).2 = true ∧
    (allocateLocalPorts (fun _ _ => true) (fun _ => 59999) c7M).1.local_audio_rtcp_port = 60001 ∧
    ¬(60001 ≤ 60000) := by decide

end NoSip

namespace NoSip

/-- srtp_set_remote does not touch the ready flag, the local ports or
the sockets. -/
theorem srtpSetRemote_core (m : Media) (video : Bool) (crypto : String) (suite : Nat) :
    coreView (srtpSetRemote m video crypto suite) = coreView m := by
  unfold srtpSetRemote
  split_ifs <;> rfl

/-- Setting has_srtp_remote does not touch the ready flag, the local
ports or the sockets. -/
theorem coreView_set_hsr (x : Media) :
    coreView { x with has_srtp_remote := true } = coreView x := rfl

/-- The crypto-attribute scan does not touch the ready flag, the local
ports or the sockets. -/
theorem processCryptoAttrs_core (video : Bool) :
    ∀ attrs m, coreView (processCryptoAttrs video m attrs) = coreView m := by
  intro attrs
  induction attrs with
  | nil => intro m; rfl
  | cons a rest ih =>
    intro m
    rcases a with ⟨name, value⟩
    rw [processCryptoAttrs]
    refine (ih _).trans ?_
    dsimp only
    by_cases hn : strCaseEq name "crypto" = true
    · rw [if_pos hn]
      rcases hv : parseCrypto value with - | ts
      · rfl
      · rcases ts with ⟨tag, ts2⟩
        rcases ts2 with ⟨suite, key⟩
        dsimp only
        by_cases hc :
            (if video = true then m.video_srtp_suite_in else m.audio_srtp_suite_in) = 0
        · rw [if_pos hc, coreView_set_hsr, srtpSetRemote_core]
          cases video <;> rfl
        · rw [if_neg hc]
    · rw [if_neg hn]

/-- The payload-type latch does not touch the ready flag, the local
ports or the sockets. -/
theorem latchPt_core (answer video : Bool) (m : Media) (ml : MLine) :
    coreView (latchPt answer video m ml) = coreView m := by
  cases answer
  · rfl
  · rw [latchPt]
    rcases hh : ml.ptypes.head? with - | pt
    · rfl
    · dsimp only
      by_cases hp : pt > -1
      · rw [if_pos hp]
        cases video <;> rfl
      · rw [if_neg hp]
        rfl

/-- Ingesting one media line does not touch the ready flag, the local
ports or the sockets. -/
theorem procLine_core (answer update : Bool) (m : Media) (changed : Bool) (ml : MLine) :
    coreView (procLine answer update m changed ml).1 = coreView m := by
  rcases ml with ⟨t, port, proto, c, dir, pts, attrs⟩
  rcases c with - | a <;>
    cases t <;>
      simp only [procLine] <;>
      (try dsimp only) <;>
      (try split_ifs) <;>
      (try simp only [latchPt_core, processCryptoAttrs_core]) <;>
      rfl

/-- The media-line ingest loop does not touch the ready flag, the
local ports or the sockets. -/
theorem procLines_core (answer update : Bool) :
    ∀ lines (m : Media) (changed : Bool),
      coreView (procLines answer update m changed lines).1 = coreView m := by
  intro lines
  induction lines with
  | nil => intro m changed; rfl
  | cons ml rest ih =>
    intro m changed
    rw [procLines]
    exact (ih _ _).trans (procLine_core answer update m changed ml)

/-- janus_nosip_sdp_process does not touch the ready flag, the local
ports or the sockets. -/
theorem sdpProcess_core (m : Media) (sdp : Sdp) (answer update : Bool) :
    coreView (sdpProcess m sdp answer update).1 = coreView m := by
  rcases sdp with ⟨c, lines⟩
  rcases c with - | a <;>
    simp only [sdpProcess] <;>
    (try dsimp only) <;>
    split <;>
    exact procLines_core answer update lines _ _

/-- Claim C3 (corrected): a process request rejected with 447 keeps the
stashed SDP, the ready flag, the local ports and the sockets — but the
ingest that ran before the check may already have rewritten the other
media fields (remote address and ports, negotiated-kind flags,
direction gates, require_srtp, inbound SRTP state). -/
theorem c3_reject447_core_unchanged (m : Media) (stash : Option Sdp) (offer : Bool)
    (msg : String) (parsed : Sdp) (m' : Media) (stash' : Option Sdp)
    (h : processBody m stash offer msg parsed = (m', stash', Reply.errorReply 447)) :
    stash' = stash ∧ coreView m' = coreView m := by
  cases offer
  all_goals
    simp only [processBody, Bool.false_eq_true, if_false, if_true] at h
    split at h
    · exact absurd h (by simp)
    · split at h
      · simp only [Prod.mk.injEq] at h
        obtain ⟨hm, hstash, -⟩ := h
        refine ⟨hstash.symm, ?_⟩
        rw [← hm]
        exact (sdpProcess_core _ parsed _ false).trans rfl
      · split at h
        · simp only [Prod.mk.injEq] at h
          obtain ⟨hm, hstash, -⟩ := h
          refine ⟨hstash.symm, ?_⟩
          rw [← hm]
          exact (sdpProcess_core _ parsed _ false).trans rfl
        · exact absurd h (by simp)

/-- Witness for C3: the concrete rejected offer keeps the stash, the
ready flag, the local ports and the sockets of the fresh session. -/
theorem c3_reject447_core_unchanged_inst :
    processBody initMedia none true "v=0 m=audio 40000 RTP/AVP 0" c3Sdp =
      (c3MOut, none, Reply.errorReply 447) ∧
    ((none : Option Sdp) = none ∧ coreView c3MOut = coreView initMedia) :=
  ⟨by decide,
   c3_reject447_core_unchanged initMedia none true "v=0 m=audio 40000 RTP/AVP 0"
     c3Sdp c3MOut none (by decide)⟩

/-- Counterexample for C3 as stated: this 447-rejected process request
does mutate media state — the remote audio port, the negotiated-audio
flag and remote RTCP port all change. -/
theorem c3_reject447_mutates_media :
    c3Run.2.2 = Reply.errorReply 447 ∧
    c3Run.1.remote_audio_rtp_port = 40000 ∧ initMedia.remote_audio_rtp_port = 0 ∧
    c3Run.1.has_audio = true ∧ initMedia.has_audio = false ∧
    c3Run.1.remote_audio_rtcp_port = 40001 := by decide

end NoSip

namespace NoSip

/-- A list is always an initial segment of itself followed by anything. -/
theorem startsWithL_self_append : ∀ (l r : List Char), startsWithL l (l ++ r) = true := by
  intro l r
  induction l with
  | nil => rfl
  | cons a t ih => simp [startsWithL, ih]

/-- A string starts with any string it extends. -/
theorem strStarts_pre_append (p k : String) : strStarts (p ++ k) p = true := by
  show startsWithL p.toList (p ++ k).toList = true
  have hd : (p ++ k).toList = p.toList ++ k.toList := by
    rcases p with ⟨pl⟩
    rcases k with ⟨kl⟩
    rfl
  rw [hd]
  exact startsWithL_self_append _ _

/-- The attribute the manipulation appends is a generated-shape crypto
attribute. -/
theorem isCryptoSha80_mk (k : String) :
    isCryptoSha80 ("crypto", "1 AES_CM_128_HMAC_SHA1_80 inline:" ++ k) = true := by
  unfold isCryptoSha80
  dsimp only
  rw [strStarts_pre_append]
  simp

/-- Appending the generated crypto attribute raises the count by one. -/
theorem cryptoCount_append_crypto (attrs : List (String × String)) (k : String) :
    cryptoCount (attrs ++ [("crypto", "1 AES_CM_128_HMAC_SHA1_80 inline:" ++ k)]) =
      cryptoCount attrs + 1 := by
  unfold cryptoCount
  rw [List.filter_append]
  simp [isCryptoSha80_mk]

/-- The payload-type latch preserves every field the manipulation view
tracks. -/
theorem latchPt_manip (answer video : Bool) (m : Media) (ml : MLine) :
    manipView (latchPt answer video m ml) = manipView m := by
  cases answer
  · rfl
  · rw [latchPt]
    rcases hh : ml.ptypes.head? with - | pt
    · rfl
    · dsimp only
      by_cases hp : pt > -1
      · rw [if_pos hp]
        cases video <;> rfl
      · rw [if_neg hp]
        rfl

/-- Rewriting one media line preserves every field the manipulation
view tracks (only SRTP-out state and payload types change). -/
theorem manipLine_manip (localIp : String) (keyB64 : Nat → String) (answer : Bool)
    (m : Media) (idx : Nat) (ml : MLine) :
    manipView (manipLine localIp keyB64 answer m idx ml).1 = manipView m := by
  rcases ml with ⟨t, port, proto, c, dir, pts, attrs⟩
  cases t <;> simp only [manipLine]
  · by_cases hs : m.has_srtp_local = true
    · rw [if_pos hs, latchPt_manip]
      rfl
    · rw [if_neg hs, latchPt_manip]
  · by_cases hs : m.has_srtp_local = true
    · rw [if_pos hs, latchPt_manip]
      rfl
    · rw [if_neg hs, latchPt_manip]

/-- The media-line rewrite loop preserves every field the manipulation
view tracks. -/
theorem manipLines_manip (localIp : String) (keyB64 : Nat → String) (answer : Bool) :
    ∀ lines (m : Media) (idx : Nat),
      manipView (manipLines localIp keyB64 answer m idx lines).1 = manipView m := by
  intro lines
  induction lines with
  | nil => intro m idx; rfl
  | cons ml rest ih =>
    intro m idx
    rw [manipLines]
    exact (ih _ _).trans (manipLine_manip localIp keyB64 answer m idx ml)

/-- The rewritten line of one manipulation step: same kind, proto and
connection address overwritten, the kind's local RTP port installed,
and exactly one generated crypto attribute appended when local SRTP is
active. -/
theorem manipLine_out (localIp : String) (keyB64 : Nat → String) (answer : Bool)
    (m : Media) (idx : Nat) (ml : MLine) :
    (manipLine localIp keyB64 answer m idx ml).2.1.mtype = ml.mtype ∧
    (manipLine localIp keyB64 answer m idx ml).2.1.proto =
      some (if m.require_srtp then "RTP/SAVP" else "RTP/AVP") ∧
    (manipLine localIp keyB64 answer m idx ml).2.1.c_addr = some localIp ∧
    (ml.mtype = MType.audio →
      (manipLine localIp keyB64 answer m idx ml).2.1.port = m.local_audio_rtp_port ∧
      cryptoCount (manipLine localIp keyB64 answer m idx ml).2.1.attributes =
        cryptoCount ml.attributes + (if m.has_srtp_local = true then 1 else 0)) ∧
    (ml.mtype = MType.video →
      (manipLine localIp keyB64 answer m idx ml).2.1.port = m.local_video_rtp_port ∧
      cryptoCount (manipLine localIp keyB64 answer m idx ml).2.1.attributes =
        cryptoCount ml.attributes + (if m.has_srtp_local = true then 1 else 0)) := by
  rcases ml with ⟨t, port, proto, c, dir, pts, attrs⟩
  cases t <;> simp only [manipLine]
  · by_cases hs : m.has_srtp_local = true
    · rw [if_pos hs]
      refine ⟨trivial, trivial, trivial, fun _ => ⟨trivial, ?_⟩,
        fun hx => MType.noConfusion hx⟩
      show cryptoCount
          (attrs ++ [("crypto", "1 AES_CM_128_HMAC_SHA1_80 inline:" ++ keyB64 idx)]) =
        cryptoCount attrs + (if m.has_srtp_local = true then 1 else 0)
      rw [cryptoCount_append_crypto, if_pos hs]
    · rw [if_neg hs]
      refine ⟨trivial, trivial, trivial, fun _ => ⟨trivial, ?_⟩,
        fun hx => MType.noConfusion hx⟩
      rw [if_neg hs]
      rfl
  · by_cases hs : m.has_srtp_local = true
    · rw [if_pos hs]
      refine ⟨trivial, trivial, trivial, fun hx => MType.noConfusion hx,
        fun _ => ⟨trivial, ?_⟩⟩
      show cryptoCount
          (attrs ++ [("crypto", "1 AES_CM_128_HMAC_SHA1_80 inline:" ++ keyB64 idx)]) =
        cryptoCount attrs + (if m.has_srtp_local = true then 1 else 0)
      rw [cryptoCount_append_crypto, if_pos hs]
    · rw [if_neg hs]
      refine ⟨trivial, trivial, trivial, fun hx => MType.noConfusion hx,
        fun _ => ⟨trivial, ?_⟩⟩
      rw [if_neg hs]
      rfl
  · exact ⟨trivial, trivial, trivial, fun hx => MType.noConfusion hx,
      fun hx => MType.noConfusion hx⟩

/-- Every line of the rewritten SDP comes from an input line and
carries the overwritten proto, connection address, local port and
crypto attribute, all determined by the media state entering the
loop. -/
theorem manipLines_out (localIp : String) (keyB64 : Nat → String) (answer : Bool) :
    ∀ lines (m : Media) (idx : Nat) ml',
      ml' ∈ (manipLines localIp keyB64 answer m idx lines).2 →
      ∃ ml, ml ∈ lines ∧
        ml'.mtype = ml.mtype ∧
        ml'.proto = some (if m.require_srtp then "RTP/SAVP" else "RTP/AVP") ∧
        ml'.c_addr = some localIp ∧
        (ml.mtype = MType.audio → ml'.port = m.local_audio_rtp_port ∧
          cryptoCount ml'.attributes =
            cryptoCount ml.attributes + (if m.has_srtp_local = true then 1 else 0)) ∧
        (ml.mtype = MType.video → ml'.port = m.local_video_rtp_port ∧
          cryptoCount ml'.attributes =
            cryptoCount ml.attributes + (if m.has_srtp_local = true then 1 else 0)) := by
  intro lines
  induction lines with
  | nil =>
    intro m idx ml' hmem
    rw [manipLines] at hmem
    exact absurd hmem (List.not_mem_nil _)
  | cons ml0 rest ih =>
    intro m idx ml' hmem
    rw [manipLines] at hmem
    rcases List.mem_cons.mp hmem with hh | hh
    · subst hh
      obtain ⟨o1, o2, o3, o4, o5⟩ := manipLine_out localIp keyB64 answer m idx ml0
      exact ⟨ml0, List.mem_cons_self _ _, o1, o2, o3, o4, o5⟩
    · obtain ⟨ml, hml, h1, h2, h3, h4, h5⟩ :=
        ih (manipLine localIp keyB64 answer m idx ml0).1
          (manipLine localIp keyB64 answer m idx ml0).2.2 ml' hh
      have hv := manipLine_manip localIp keyB64 answer m idx ml0
      have hreq : (manipLine localIp keyB64 answer m idx ml0).1.require_srtp =
          m.require_srtp := congrArg (fun t => t.1.1) hv
      have hloc : (manipLine localIp keyB64 answer m idx ml0).1.has_srtp_local =
          m.has_srtp_local := congrArg (fun t => t.1.2.1) hv
      have hlap : (manipLine localIp keyB64 answer m idx ml0).1.local_audio_rtp_port =
          m.local_audio_rtp_port := congrArg (fun t => t.2.1.1) hv
      have hlvp : (manipLine localIp keyB64 answer m idx ml0).1.local_video_rtp_port =
          m.local_video_rtp_port := congrArg (fun t => t.2.1.2.2.1) hv
      refine ⟨ml, List.mem_cons_of_mem _ hml, h1, ?_, h3, ?_, ?_⟩
      · rw [h2, hreq]
      · intro ha
        obtain ⟨hp, hc⟩ := h4 ha
        exact ⟨hp.trans hlap, by rw [hc, hloc]⟩
      · intro hvid
        obtain ⟨hp, hc⟩ := h5 hvid
        exact ⟨hp.trans hlvp, by rw [hc, hloc]⟩

end NoSip

namespace NoSip

/-- The port allocator never changes the negotiated-kind flags, the
SRTP flags or the ready flag. -/
theorem allocateLocalPorts_pres (bindOk : Nat → Nat → Bool) (picks : Nat → Nat)
    (m : Media) :
    (allocateLocalPorts bindOk picks m).1.require_srtp = m.require_srtp ∧
    (allocateLocalPorts bindOk picks m).1.has_srtp_local = m.has_srtp_local ∧
    (allocateLocalPorts bindOk picks m).1.has_srtp_remote = m.has_srtp_remote ∧
    (allocateLocalPorts bindOk picks m).1.has_audio = m.has_audio ∧
    (allocateLocalPorts bindOk picks m).1.has_video = m.has_video ∧
    (allocateLocalPorts bindOk picks m).1.ready = m.ready := by
  obtain ⟨a1, a2, a3, a4, a5, a6, -, -, -, -, -⟩ :=
    allocAudioStage_pres bindOk picks (resetPorts m) 100 0
  obtain ⟨v1, v2, v3, v4, v5, v6, -, -, -, -, -⟩ :=
    allocVideoStage_pres bindOk picks
      (allocAudioStage bindOk picks (resetPorts m) 100 0).media
      (allocAudioStage bindOk picks (resetPorts m) 100 0).attemptsLeft
      (allocAudioStage bindOk picks (resetPorts m) 100 0).idxNext
  simp only [allocateLocalPorts]
  split
  · split
    · exact ⟨v3.trans a3, v4.trans a4, v5.trans a5, v1.trans a1, v2.trans a2, v6.trans a6⟩
    · exact ⟨v3.trans a3, v4.trans a4, v5.trans a5, v1.trans a1, v2.trans a2, v6.trans a6⟩
  · exact ⟨a3, a4, a5, a1, a2, a6⟩

/-- With audio not negotiated the allocator leaves the audio side at
its reset values: ports zero, sockets closed. -/
theorem allocateLocalPorts_no_audio (bindOk : Nat → Nat → Bool) (picks : Nat → Nat)
    (m : Media) (hA : m.has_audio = false) :
    (allocateLocalPorts bindOk picks m).1.local_audio_rtp_port = 0 ∧
    (allocateLocalPorts bindOk picks m).1.local_audio_rtcp_port = 0 ∧
    (allocateLocalPorts bindOk picks m).1.audio_rtp_fd = -1 ∧
    (allocateLocalPorts bindOk picks m).1.audio_rtcp_fd = -1 := by
  have hne : ¬((resetPorts m).has_audio = true) := by
    intro hh
    exact absurd (show m.has_audio = true from hh) (by simp [hA])
  have hstage : allocAudioStage bindOk picks (resetPorts m) 100 0 =
      ⟨resetPorts m, 100, 0, true⟩ := by
    unfold allocAudioStage
    rw [if_neg hne]
  obtain ⟨-, -, -, -, -, -, -, v8, v9, v10, v11⟩ :=
    allocVideoStage_pres bindOk picks (resetPorts m) 100 0
  simp only [allocateLocalPorts]
  rw [hstage, if_pos rfl]
  split
  · exact ⟨v8, v9, v10, v11⟩
  · exact ⟨v8, v9, v10, v11⟩

/-- With video not negotiated the allocator leaves the video side at
its reset values: ports zero, sockets closed. -/
theorem allocateLocalPorts_no_video (bindOk : Nat → Nat → Bool) (picks : Nat → Nat)
    (m : Media) (hV : m.has_video = false) :
    (allocateLocalPorts bindOk picks m).1.local_video_rtp_port = 0 ∧
    (allocateLocalPorts bindOk picks m).1.local_video_rtcp_port = 0 ∧
    (allocateLocalPorts bindOk picks m).1.video_rtp_fd = -1 ∧
    (allocateLocalPorts bindOk picks m).1.video_rtcp_fd = -1 := by
  obtain ⟨-, a2, -, -, -, -, -, a8, a9, a10, a11⟩ :=
    allocAudioStage_pres bindOk picks (resetPorts m) 100 0
  have hne : ¬((allocAudioStage bindOk picks (resetPorts m) 100 0).media.has_video
      = true) := by
    intro hh
    rw [a2] at hh
    exact absurd (show m.has_video = true from hh) (by simp [hV])
  have hstage : allocVideoStage bindOk picks
      (allocAudioStage bindOk picks (resetPorts m) 100 0).media
      (allocAudioStage bindOk picks (resetPorts m) 100 0).attemptsLeft
      (allocAudioStage bindOk picks (resetPorts m) 100 0).idxNext =
      ((allocAudioStage bindOk picks (resetPorts m) 100 0).media, true) := by
    unfold allocVideoStage
    rw [if_neg hne]
  simp only [allocateLocalPorts]
  split
  · rw [hstage, if_pos rfl]
    exact ⟨a8, a9, a10, a11⟩
  · exact ⟨a8, a9, a10, a11⟩

/-- Inversion of the shared generate tail on a generated reply: the
allocation succeeded, the rewritten SDP is exactly the manipulated
parse, and the final media is the manipulated media (made ready on
answers). -/
theorem generateRest_gen_inv (localIp : String) (keyB64 : Nat → String)
    (bindOk : Nat → Nat → Bool) (picks : Nat → Nat) (mb : Media) (offer : Bool)
    (stash : Option Sdp) (msgSdp : String) (parsed : Sdp)
    (m' : Media) (stash' : Option Sdp) (off : Bool) (rew : Sdp)
    (h : generateRest localIp keyB64 bindOk picks mb offer stash msgSdp parsed
      = (m', stash', Reply.generated off rew)) :
    (allocateLocalPorts bindOk picks (genFlags mb msgSdp)).2 = true ∧
    off = offer ∧
    m' = (if offer then
        (manipLines localIp keyB64 false
          (allocateLocalPorts bindOk picks (genFlags mb msgSdp)).1 0 parsed.m_lines).1
      else
        { (manipLines localIp keyB64 false
            (allocateLocalPorts bindOk picks (genFlags mb msgSdp)).1 0
            parsed.m_lines).1 with
          ready := true }) ∧
    rew = { c_addr := parsed.c_addr,
            m_lines := (manipLines localIp keyB64 false
              (allocateLocalPorts bindOk picks (genFlags mb msgSdp)).1 0
              parsed.m_lines).2 } := by
  simp only [generateRest] at h
  split at h
  · rename_i hok
    simp only [Prod.mk.injEq, Reply.generated.injEq] at h
    obtain ⟨h1, h2, h3, h4⟩ := h
    exact ⟨hok, h3.symm, h1.symm, h4.symm⟩
  · exact absurd h (by simp)

/-- Inversion of the generate body on a generated reply: the srtp field
parsed, and the shared tail ran on the offer-updated media (offers
install require_srtp/has_srtp_local from the request, answers keep the
media untouched). -/
theorem generateBody_gen_inv (localIp : String) (keyB64 : Nat → String)
    (bindOk : Nat → Nat → Bool) (picks : Nat → Nat) (m : Media)
    (stash : Option Sdp) (offer : Bool) (srtpParam : Option String)
    (msgSdp : String) (parsed : Sdp)
    (m' : Media) (stash' : Option Sdp) (off : Bool) (rew : Sdp)
    (h : generateBody localIp keyB64 bindOk picks m stash offer srtpParam msgSdp parsed
      = (m', stash', Reply.generated off rew)) :
    ∃ ds : Bool × Bool, srtpParse srtpParam = some ds ∧
      ((offer = true ∧
        generateRest localIp keyB64 bindOk picks
          { srtpCleanup m with require_srtp := ds.2, has_srtp_local := ds.1 }
          offer stash msgSdp parsed = (m', stash', Reply.generated off rew)) ∨
       (offer = false ∧
        generateRest localIp keyB64 bindOk picks m offer stash msgSdp parsed
          = (m', stash', Reply.generated off rew))) := by
  cases offer
  · simp only [generateBody, Bool.false_eq_true, if_false] at h
    split at h
    · exact absurd h (by simp)
    · split at h
      · exact absurd h (by simp)
      · rename_i ds hds
        split at h
        · exact absurd h (by simp)
        · exact ⟨ds, hds, Or.inr ⟨rfl, h⟩⟩
  · simp only [generateBody, Bool.false_eq_true, if_false, if_true] at h
    split at h
    · exact absurd h (by simp)
    · split at h
      · exact absurd h (by simp)
      · rename_i ds hds
        exact ⟨ds, hds, Or.inl ⟨rfl, h⟩⟩

end NoSip

namespace NoSip

/-- The generate tail under require_srtp and has_srtp_local: every
rewritten line is RTP/SAVP at the local IP with the kind's allocated
local RTP port and exactly one generated crypto attribute (given
crypto-free input lines). -/
theorem generateRest_savp_lines (localIp : String) (keyB64 : Nat → String)
    (bindOk : Nat → Nat → Bool) (picks : Nat → Nat) (mb : Media) (offer : Bool)
    (stash : Option Sdp) (msgSdp : String) (parsed : Sdp)
    (m' : Media) (stash' : Option Sdp) (off : Bool) (rew : Sdp)
    (hreq : mb.require_srtp = true) (hloc : mb.has_srtp_local = true)
    (hnoc : ∀ ml ∈ parsed.m_lines, cryptoCount ml.attributes = 0)
    (h : generateRest localIp keyB64 bindOk picks mb offer stash msgSdp parsed
      = (m', stash', Reply.generated off rew)) :
    ∀ ml' ∈ rew.m_lines,
      ml'.proto = some "RTP/SAVP" ∧ ml'.c_addr = some localIp ∧
      (ml'.mtype = MType.audio →
        ml'.port = m'.local_audio_rtp_port ∧ cryptoCount ml'.attributes = 1) ∧
      (ml'.mtype = MType.video →
        ml'.port = m'.local_video_rtp_port ∧ cryptoCount ml'.attributes = 1) := by
  obtain ⟨hok, -, hm', hrew⟩ := generateRest_gen_inv localIp keyB64 bindOk picks mb
    offer stash msgSdp parsed m' stash' off rew h
  subst hm'
  subst hrew
  intro ml' hmem
  obtain ⟨ml, hml, o1, o2, o3, o4, o5⟩ :=
    manipLines_out localIp keyB64 false parsed.m_lines
      (allocateLocalPorts bindOk picks (genFlags mb msgSdp)).1 0 ml' hmem
  obtain ⟨p1, p2, -, -, -, -⟩ := allocateLocalPorts_pres bindOk picks (genFlags mb msgSdp)
  have hmv := manipLines_manip localIp keyB64 false parsed.m_lines
    (allocateLocalPorts bindOk picks (genFlags mb msgSdp)).1 0
  have hreq2 : (allocateLocalPorts bindOk picks (genFlags mb msgSdp)).1.require_srtp
      = true := p1.trans hreq
  have hloc2 : (allocateLocalPorts bindOk picks (genFlags mb msgSdp)).1.has_srtp_local
      = true := p2.trans hloc
  have hlap := congrArg (fun t => t.2.1.1) hmv
  have hlvp := congrArg (fun t => t.2.1.2.2.1) hmv
  refine ⟨?_, o3, ?_, ?_⟩
  · rw [o2, hreq2]
    rfl
  · intro hmt
    obtain ⟨hp, hc⟩ := o4 (o1.symm.trans hmt)
    constructor
    · cases offer
      · exact hp.trans hlap.symm
      · exact hp.trans hlap.symm
    · rw [hc, hloc2, hnoc ml hml]
      rfl
  · intro hmt
    obtain ⟨hp, hc⟩ := o5 (o1.symm.trans hmt)
    constructor
    · cases offer
      · exact hp.trans hlvp.symm
      · exact hp.trans hlvp.symm
    · rw [hc, hloc2, hnoc ml hml]
      rfl

/-- The generate tail on a kind whose flag is down and whose m= marker
carries a zero port: the flag stays down and the kind keeps its reset
ports and sockets. -/
theorem generateRest_zero_kind (localIp : String) (keyB64 : Nat → String)
    (bindOk : Nat → Nat → Bool) (picks : Nat → Nat) (mb : Media) (offer : Bool)
    (stash : Option Sdp) (msgSdp : String) (parsed : Sdp)
    (m' : Media) (stash' : Option Sdp) (off : Bool) (rew : Sdp)
    (h : generateRest localIp keyB64 bindOk picks mb offer stash msgSdp parsed
      = (m', stash', Reply.generated off rew)) :
    (mb.has_audio = false → hasSub msgSdp "m=audio 0" = true →
      m'.has_audio = false ∧ m'.local_audio_rtp_port = 0 ∧
      m'.local_audio_rtcp_port = 0 ∧ m'.audio_rtp_fd = -1 ∧ m'.audio_rtcp_fd = -1) ∧
    (mb.has_video = false → hasSub msgSdp "m=video 0" = true →
      m'.has_video = false ∧ m'.local_video_rtp_port = 0 ∧
      m'.local_video_rtcp_port = 0 ∧ m'.video_rtp_fd = -1 ∧ m'.video_rtcp_fd = -1) := by
  obtain ⟨-, -, hm', -⟩ := generateRest_gen_inv localIp keyB64 bindOk picks mb
    offer stash msgSdp parsed m' stash' off rew h
  subst hm'
  have hmv := manipLines_manip localIp keyB64 false parsed.m_lines
    (allocateLocalPorts bindOk picks (genFlags mb msgSdp)).1 0
  constructor
  · intro hA hz
    have hga : (genFlags mb msgSdp).has_audio = false := by
      simp [genFlags, hA, hz]
    obtain ⟨z1, z2, z3, z4⟩ := allocateLocalPorts_no_audio bindOk picks
      (genFlags mb msgSdp) hga
    obtain ⟨-, -, -, p4, -, -⟩ := allocateLocalPorts_pres bindOk picks
      (genFlags mb msgSdp)
    have ha := congrArg (fun t => t.1.2.2.1) hmv
    have hp1 := congrArg (fun t => t.2.1.1) hmv
    have hp2 := congrArg (fun t => t.2.1.2.1) hmv
    have hf1 := congrArg (fun t => t.2.2.1) hmv
    have hf2 := congrArg (fun t => t.2.2.2.1) hmv
    cases offer
    · exact ⟨ha.trans (p4.trans hga), hp1.trans z1, hp2.trans z2,
        hf1.trans z3, hf2.trans z4⟩
    · exact ⟨ha.trans (p4.trans hga), hp1.trans z1, hp2.trans z2,
        hf1.trans z3, hf2.trans z4⟩
  · intro hV hz
    have hgv : (genFlags mb msgSdp).has_video = false := by
      simp [genFlags, hV, hz]
    obtain ⟨z1, z2, z3, z4⟩ := allocateLocalPorts_no_video bindOk picks
      (genFlags mb msgSdp) hgv
    obtain ⟨-, -, -, -, p5, -⟩ := allocateLocalPorts_pres bindOk picks
      (genFlags mb msgSdp)
    have hv := congrArg (fun t => t.1.2.2.2.1) hmv
    have hp1 := congrArg (fun t => t.2.1.2.2.1) hmv
    have hp2 := congrArg (fun t => t.2.1.2.2.2) hmv
    have hf1 := congrArg (fun t => t.2.2.2.2.1) hmv
    have hf2 := congrArg (fun t => t.2.2.2.2.2) hmv
    cases offer
    · exact ⟨hv.trans (p5.trans hgv), hp1.trans z1, hp2.trans z2,
        hf1.trans z3, hf2.trans z4⟩
    · exact ⟨hv.trans (p5.trans hgv), hp1.trans z1, hp2.trans z2,
        hf1.trans z3, hf2.trans z4⟩

/-- C4: every successful generate-offer with srtp=sdes_mandatory
rewrites each negotiated media line to proto RTP/SAVP, the kind's
freshly allocated local RTP port, the configured local IP as connection
address, and exactly one crypto:1 AES_CM_128_HMAC_SHA1_80 inline
attribute (the input lines carrying none of their own). -/
theorem c4_mandatory_offer_media_lines (localIp : String) (keyB64 : Nat → String)
    (bindOk : Nat → Nat → Bool) (picks : Nat → Nat) (m : Media) (stash : Option Sdp)
    (msgSdp : String) (parsed : Sdp)
    (m' : Media) (stash' : Option Sdp) (off : Bool) (rew : Sdp)
    (hnoc : ∀ ml ∈ parsed.m_lines, cryptoCount ml.attributes = 0)
    (h : generateBody localIp keyB64 bindOk picks m stash true
      (some "sdes_mandatory") msgSdp parsed = (m', stash', Reply.generated off rew)) :
    ∀ ml' ∈ rew.m_lines,
      ml'.proto = some "RTP/SAVP" ∧ ml'.c_addr = some localIp ∧
      (ml'.mtype = MType.audio →
        ml'.port = m'.local_audio_rtp_port ∧ cryptoCount ml'.attributes = 1) ∧
      (ml'.mtype = MType.video →
        ml'.port = m'.local_video_rtp_port ∧ cryptoCount ml'.attributes = 1) := by
  obtain ⟨ds, hds, hcase⟩ := generateBody_gen_inv localIp keyB64 bindOk picks m stash
    true (some "sdes_mandatory") msgSdp parsed m' stash' off rew h
  have hds2 : ds = (true, true) :=
    Option.some.inj (hds.symm.trans (by decide))
  rcases hcase with ⟨-, hrest⟩ | ⟨hof, -⟩
  · exact generateRest_savp_lines localIp keyB64 bindOk picks _ true stash msgSdp
      parsed m' stash' off rew (congrArg Prod.snd hds2) (congrArg Prod.fst hds2)
      hnoc hrest
  · exact absurd hof (by decide)

/-- Closed instance for C4: the sdes_mandatory offer run on a fresh
session produces the RTP/SAVP line at the allocated port with one
crypto attribute. -/
theorem c4_mandatory_offer_media_lines_inst :
    (∀ ml ∈ c4Sdp.m_lines, cryptoCount ml.attributes = 0) ∧
    (generateBody "10.0.0.1" (fun _ => "KEY") (fun _ _ => true) (fun _ => 10000)
       initMedia none true (some "sdes_mandatory") "v=0 m=audio 4000 RTP/AVP 0" c4Sdp
      = (c4MOut, some c4Rew, Reply.generated true c4Rew)) ∧
    (c4Out.proto = some "RTP/SAVP" ∧ c4Out.c_addr = some "10.0.0.1" ∧
      (c4Out.mtype = MType.audio →
        c4Out.port = c4MOut.local_audio_rtp_port ∧ cryptoCount c4Out.attributes = 1) ∧
      (c4Out.mtype = MType.video →
        c4Out.port = c4MOut.local_video_rtp_port ∧ cryptoCount c4Out.attributes = 1)) :=
  ⟨by decide, by decide,
   c4_mandatory_offer_media_lines "10.0.0.1" (fun _ => "KEY") (fun _ _ => true)
     (fun _ => 10000) initMedia none "v=0 m=audio 4000 RTP/AVP 0" c4Sdp
     c4MOut (some c4Rew) true c4Rew (by decide) (by decide) c4Out (by decide)⟩

/-- C8: a generate answer on a session whose offer mandated SRTP with
no remote crypto accepted is rejected 450 with media, stash and ports
untouched; a generate answer that is not rejected leaves has_srtp_local
exactly as it was — the source computes
do_srtp = do_srtp || has_srtp_remote into a local variable it never
reads, so nothing is inherited into the session. -/
theorem c8_generate_answer_srtp_gate (localIp : String) (keyB64 : Nat → String)
    (bindOk : Nat → Nat → Bool) (picks : Nat → Nat) (m : Media) (stash : Option Sdp)
    (srtpParam : Option String) (msgSdp : String) (parsed : Sdp) :
    (m.require_srtp = true → m.has_srtp_remote = false →
      hasSub msgSdp "m=application" = false → srtpParse srtpParam ≠ none →
      generateBody localIp keyB64 bindOk picks m stash false srtpParam msgSdp parsed
        = (m, stash, Reply.errorReply 450)) ∧
    (∀ m' stash' off rew,
      generateBody localIp keyB64 bindOk picks m stash false srtpParam msgSdp parsed
        = (m', stash', Reply.generated off rew) →
      m'.has_srtp_local = m.has_srtp_local) := by
  constructor
  · intro hreq hrem h446 hsp
    rcases hp : srtpParse srtpParam with - | ds
    · exact absurd hp hsp
    · simp only [generateBody, h446, Bool.false_eq_true, if_false, hp]
      rw [hreq, hrem]
      simp
  · intro m' stash' off rew h
    obtain ⟨ds, -, hcase⟩ := generateBody_gen_inv localIp keyB64 bindOk picks m stash
      false srtpParam msgSdp parsed m' stash' off rew h
    rcases hcase with ⟨hof, -⟩ | ⟨-, hrest⟩
    · exact absurd hof (by decide)
    · obtain ⟨-, -, hm', -⟩ := generateRest_gen_inv localIp keyB64 bindOk picks m
        false stash msgSdp parsed m' stash' off rew hrest
      rw [if_neg (by decide)] at hm'
      subst hm'
      have hmv := manipLines_manip localIp keyB64 false parsed.m_lines
        (allocateLocalPorts bindOk picks (genFlags m msgSdp)).1 0
      obtain ⟨-, p2, -, -, -, -⟩ := allocateLocalPorts_pres bindOk picks
        (genFlags m msgSdp)
      exact (congrArg (fun t => t.1.2.1) hmv).trans p2

/-- Closed instance for C8: the mandated-but-unanswered session is
rejected 450 untouched, and the accepted answer on the remote-SRTP
session keeps has_srtp_local at its prior value. -/
theorem c8_generate_answer_srtp_gate_inst :
    (generateBody "10.0.0.1" (fun _ => "KEY") (fun _ _ => true) (fun _ => 10000)
       c8RejM none false (some "sdes_mandatory") "v=0 m=audio 4000 RTP/AVP 0" c8Sdp
      = (c8RejM, none, Reply.errorReply 450)) ∧
    c8Run.1.has_srtp_local = c8M.has_srtp_local :=
  ⟨(c8_generate_answer_srtp_gate "10.0.0.1" (fun _ => "KEY") (fun _ _ => true)
      (fun _ => 10000) c8RejM none (some "sdes_mandatory")
      "v=0 m=audio 4000 RTP/AVP 0" c8Sdp).1 rfl rfl (by decide) (by decide),
   (c8_generate_answer_srtp_gate "10.0.0.1" (fun _ => "KEY") (fun _ _ => true)
      (fun _ => 10000) c8M none none "v=0 m=audio 4000 RTP/AVP 0" c8Sdp).2
     c8Run.1 c8Run.2.1 false c8Rew (by decide)⟩

/-- Counterexample to the inheritance clause of C8: the session
accepted remote SRTP, so has_srtp_local || has_srtp_remote is true, yet
the non-rejected generate answer leaves has_srtp_local false (and the
answer goes out as plain RTP/AVP). -/
theorem c8_has_srtp_local_not_inherited :
    isErrorReply c8Run.2.2 = false ∧
    (c8M.has_srtp_local || c8M.has_srtp_remote) = true ∧
    c8Run.1.has_srtp_local = false ∧
    c8Run.2.2 = Reply.generated false c8Rew ∧
    c8Out.proto = some "RTP/AVP" := by decide

/-- C9: in a successful generate, a kind whose negotiated flag was down
and whose m= marker appears with a zero port stays unnegotiated: the
flag remains false and its local ports and sockets keep their reset
values, so nothing was allocated for it. -/
theorem c9_zero_port_kind_unallocated (localIp : String) (keyB64 : Nat → String)
    (bindOk : Nat → Nat → Bool) (picks : Nat → Nat) (m : Media) (stash : Option Sdp)
    (offer : Bool) (srtpParam : Option String) (msgSdp : String) (parsed : Sdp)
    (m' : Media) (stash' : Option Sdp) (off : Bool) (rew : Sdp)
    (h : generateBody localIp keyB64 bindOk picks m stash offer srtpParam msgSdp parsed
      = (m', stash', Reply.generated off rew)) :
    (m.has_audio = false → hasSub msgSdp "m=audio 0" = true →
      m'.has_audio = false ∧ m'.local_audio_rtp_port = 0 ∧
      m'.local_audio_rtcp_port = 0 ∧ m'.audio_rtp_fd = -1 ∧ m'.audio_rtcp_fd = -1) ∧
    (m.has_video = false → hasSub msgSdp "m=video 0" = true →
      m'.has_video = false ∧ m'.local_video_rtp_port = 0 ∧
      m'.local_video_rtcp_port = 0 ∧ m'.video_rtp_fd = -1 ∧ m'.video_rtcp_fd = -1) := by
  obtain ⟨ds, -, hcase⟩ := generateBody_gen_inv localIp keyB64 bindOk picks m stash
    offer srtpParam msgSdp parsed m' stash' off rew h
  rcases hcase with ⟨-, hrest⟩ | ⟨-, hrest⟩
  · obtain ⟨h1, h2⟩ := generateRest_zero_kind localIp keyB64 bindOk picks _ offer
      stash msgSdp parsed m' stash' off rew hrest
    exact ⟨h1, h2⟩
  · obtain ⟨h1, h2⟩ := generateRest_zero_kind localIp keyB64 bindOk picks m offer
      stash msgSdp parsed m' stash' off rew hrest
    exact ⟨h1, h2⟩

/-- Closed instance for C9: the offer whose SDP text declines audio
with a zero port leaves the audio side unnegotiated and unallocated
while video is allocated normally. -/
theorem c9_zero_port_kind_unallocated_inst :
    (generateBody "10.0.0.1" (fun _ => "KEY") (fun _ _ => true) (fun _ => 10000)
       initMedia none true none
       "v=0 m=audio 0 RTP/AVP 0 m=video 5000 RTP/AVP 96" c9Sdp
      = (c9MOut, some c9Rew, Reply.generated true c9Rew)) ∧
    (c9MOut.has_audio = false ∧ c9MOut.local_audio_rtp_port = 0 ∧
      c9MOut.local_audio_rtcp_port = 0 ∧ c9MOut.audio_rtp_fd = -1 ∧
      c9MOut.audio_rtcp_fd = -1) :=
  ⟨by decide,
   (c9_zero_port_kind_unallocated "10.0.0.1" (fun _ => "KEY") (fun _ _ => true)
      (fun _ => 10000) initMedia none true none
      "v=0 m=audio 0 RTP/AVP 0 m=video 5000 RTP/AVP 96" c9Sdp
      c9MOut (some c9Rew) true c9Rew (by decide)).1 rfl (by decide)⟩

end NoSip
